import Mathlib

/-!
# SignalR C++ client: the `Connection` lifecycle

A shallow embedding of `src/Microsoft.AspNet.SignalR.Client.Cpp/Connection.cpp`.

* `Connection` carries the member variables of the C++ class, the subscriber slots included
  (a slot records whether the `std::function` is non-null).
* `World` adds what lives outside the object: the connect pipelines created by
  `Connection::Negotiate` (pplx tasks with their continuations), the number of cancellation
  token sources created so far, and the chronological trace of observable effects (events
  reaching their dispatch site, calls made on transports).
* A transport is an external collaborator; it is described by its identity and by the results
  its asynchronous operations resolve to.
* Lifecycle subscribers are observers: they return normally and do not call back into the
  connection. A dispatch `if (slot != nullptr) slot(payload)` records the event, whether a
  subscriber was there to receive it, and the connection fields that subscriber sees.
* The `Received` slot carries the subscribers its one call `Received(message)` reaches, each
  with the fault it may raise. How that call serves them is not in the source; it follows
  the specification (`invokeReceived`). A fault that leaves the call is caught by the try
  block of `Connection::OnReceived`.
* A call through a null `shared_ptr` or `unique_ptr` ends the operation with
  `Outcome.nullDeref`.
* Operations are atomic steps; the continuations of a pipeline are separate steps
  (`negotiateCompleted`, `transportStartCompleted`) that may be interleaved with them.
  `task.wait()` lets the awaited pipeline take its remaining steps.
-/

namespace SignalR

/-- The payload of a C++ `exception`. -/
abbrev Fault := String

/-- The enumeration `ConnectionState`. -/
inductive ConnectionState where
  | Connecting
  | Connected
  | Reconnecting
  | Disconnected
  deriving DecidableEq, Repr

/-- The class `NegotiationResponse`, as far as `Connection::Negotiate` reads it. -/
structure NegotiationResponse where
  mConnectionId : String
  mConnectionToken : String

/-- How a C++ call ends: it returns a value, it throws, or it calls through a null pointer. -/
inductive Outcome (α : Type) where
  | returned (a : α)
  | threw (ex : Fault)
  | nullDeref
  deriving DecidableEq, Repr

/-- An `IClientTransport`: its identity and what its asynchronous operations resolve to. -/
structure Transport where
  id : Nat
  negotiate : Except Fault NegotiationResponse
  start : Except Fault Unit
  send : String → Except Fault Unit

/-- A `pplx::task<void>` held or returned by the connection: the default-constructed task or
the pipeline created by the k-th call of `Connection::Negotiate`. -/
inductive TaskHandle where
  | empty
  | connect (k : Nat)
  deriving DecidableEq, Repr

/-- The stage a connect pipeline is in. -/
inductive ConnectTask where
  | awaitingNegotiate (tr : Transport)
  | awaitingStart (tr : Transport)
  | done (r : Outcome Unit)

/-- The notification channels of the connection with their payloads. -/
inductive Event where
  | StateChanged (oldState newState : ConnectionState)
  | Received (message : String)
  | Error (ex : Fault)
  | Closed
  | Reconnecting
  | Reconnected
  | ConnectionSlow
  deriving DecidableEq, Repr

/-- The connection fields a subscriber can read when it is invoked. -/
structure Snapshot where
  mState : ConnectionState
  mConnectionId : String
  mConnectionToken : String
  mGroupsToken : String
  mMessageId : String
  deriving DecidableEq, Repr

/-- Observable effects: an event reaching its dispatch site (with whether a subscriber was
registered and what it sees), and the calls made on a transport. -/
inductive Effect where
  | fired (ev : Event) (delivered : Bool) (seen : Snapshot)
  | negotiate (transport : Nat)
  | start (transport : Nat) (token : Nat)
  | send (transport : Nat) (data : String)
  | abort (transport : Nat)
  | dispose (transport : Nat)
  deriving DecidableEq, Repr

/-- The member variables of class `Connection`. A subscriber slot is `true` when the
`std::function` is not `nullptr`; the `Received` slot also carries its subscribers, each
described by the fault it raises on a given message, if any. -/
structure Connection where
  mUri : String
  mProtocol : String
  mQueryString : String
  mConnectionId : String
  mConnectionToken : String
  mGroupsToken : String
  mMessageId : String
  mState : ConnectionState
  mTransport : Option Transport
  mConnectTask : TaskHandle
  mDisconnectCts : Option Nat
  StateChanged : Bool
  Received : Option (List (String → Option Fault))
  Error : Bool
  Closed : Bool
  Reconnecting : Bool
  Reconnected : Bool
  ConnectionSlow : Bool

/-- The connection together with its environment. -/
structure World where
  conn : Connection
  tasks : List ConnectTask
  ctsCount : Nat
  trace : List Effect

/-- What a subscriber invoked now would read. -/
def Connection.snapshot (c : Connection) : Snapshot :=
  { mState := c.mState
    mConnectionId := c.mConnectionId
    mConnectionToken := c.mConnectionToken
    mGroupsToken := c.mGroupsToken
    mMessageId := c.mMessageId }

/-- Append an effect to the trace. -/
def World.emit (w : World) (e : Effect) : World :=
  { w with trace := w.trace ++ [e] }

/-- Dispatch site `if (slot != nullptr) slot(payload)`. -/
def World.fire (w : World) (ev : Event) (slot : Bool) : World :=
  w.emit (Effect.fired ev slot w.conn.snapshot)

/-- Replace the stage of pipeline `k`. -/
def World.setTask (w : World) (k : Nat) (stage : ConnectTask) : World :=
  { w with tasks := w.tasks.set k stage }

/-- The fields after the body of `Connection::Connection` ran on a non-empty address. -/
def Connection.init (uri : String) : Connection :=
  { mUri := if uri.back = '/' then uri else uri ++ "/"
    mProtocol := "1.3"
    mQueryString := ""
    mConnectionId := ""
    mConnectionToken := ""
    mGroupsToken := ""
    mMessageId := ""
    mState := ConnectionState.Disconnected
    mTransport := none
    mConnectTask := TaskHandle.empty
    mDisconnectCts := none
    StateChanged := false
    Received := none
    Error := false
    Closed := false
    Reconnecting := false
    Reconnected := false
    ConnectionSlow := false }

/-- The constructor `Connection::Connection(string_t uri)`. -/
def Connection.ctor (uri : String) : Outcome Connection :=
  if uri.isEmpty then Outcome.threw "ArgumentNullException: uri"
  else Outcome.returned (Connection.init uri)

/-- A freshly constructed connection in an empty environment. -/
def World.init (uri : String) : World :=
  { conn := Connection.init uri, tasks := [], ctsCount := 0, trace := [] }

/-- The method `Connection::SetState`. -/
def SetState (w : World) (newState : ConnectionState) : World :=
  let stateChange := Event.StateChanged w.conn.mState newState
  let w1 : World := { w with conn := { w.conn with mState := newState } }
  w1.fire stateChange w1.conn.StateChanged

/-- The method `Connection::ChangeState`. -/
def ChangeState (w : World) (oldState newState : ConnectionState) : World × Bool :=
  if w.conn.mState = oldState then (SetState w newState, true)
  else (w, false)

/-- The method `Connection::Negotiate`: calls the bound transport's negotiate operation and
returns the pipeline whose continuation stores the identity and chains into
`StartTransport`. -/
def Negotiate (w : World) (_transport : Option Transport) : World × Outcome TaskHandle :=
  match w.conn.mTransport with
  | none => (w, Outcome.nullDeref)
  | some tr =>
    ({ w.emit (Effect.negotiate tr.id) with
        tasks := w.tasks ++ [ConnectTask.awaitingNegotiate tr] },
      Outcome.returned (TaskHandle.connect w.tasks.length))

/-- The method `Connection::Start(shared_ptr<IClientTransport>)`. -/
def Start (w : World) (transport : Option Transport) : World × Outcome TaskHandle :=
  let w1 : World :=
    { w with
      conn := { w.conn with mConnectTask := TaskHandle.empty, mDisconnectCts := some w.ctsCount }
      ctsCount := w.ctsCount + 1 }
  match ChangeState w1 ConnectionState.Disconnected ConnectionState.Connecting with
  | (w2, false) => (w2, Outcome.returned w2.conn.mConnectTask)
  | (w2, true) =>
    let w3 : World := { w2 with conn := { w2.conn with mTransport := transport } }
    match Negotiate w3 transport with
    | (w4, Outcome.returned t) =>
      ({ w4 with conn := { w4.conn with mConnectTask := t } }, Outcome.returned t)
    | (w4, Outcome.threw ex) => (w4, Outcome.threw ex)
    | (w4, Outcome.nullDeref) => (w4, Outcome.nullDeref)

/-- The method `Connection::StartTransport`: calls the bound transport's start operation with
the current cancellation token; the result is the stage the calling pipeline moves to. -/
def StartTransport (w : World) : World × ConnectTask :=
  match w.conn.mTransport, w.conn.mDisconnectCts with
  | some tr, some cts => (w.emit (Effect.start tr.id cts), ConnectTask.awaitingStart tr)
  | _, _ => (w, ConnectTask.done Outcome.nullDeref)

/-- The transport's negotiate task of pipeline `k` completes: the continuation registered in
`Connection::Negotiate` runs on success, the failure propagates otherwise. -/
def negotiateCompleted (w : World) (k : Nat) : World :=
  match w.tasks[k]? with
  | some (ConnectTask.awaitingNegotiate tr) =>
    match tr.negotiate with
    | Except.error ex => w.setTask k (ConnectTask.done (Outcome.threw ex))
    | Except.ok response =>
      let w1 : World :=
        { w with
          conn := { w.conn with
            mConnectionId := response.mConnectionId
            mConnectionToken := response.mConnectionToken } }
      let r := StartTransport w1
      r.1.setTask k r.2
  | _ => w

/-- The transport's start task of pipeline `k` completes: the continuation registered in
`Connection::StartTransport` runs on success, the failure propagates otherwise. -/
def transportStartCompleted (w : World) (k : Nat) : World :=
  match w.tasks[k]? with
  | some (ConnectTask.awaitingStart tr) =>
    match tr.start with
    | Except.error ex => w.setTask k (ConnectTask.done (Outcome.threw ex))
    | Except.ok _ =>
      let r := ChangeState w ConnectionState.Connecting ConnectionState.Connected
      r.1.setTask k (ConnectTask.done (Outcome.returned ()))
  | _ => w

/-- The call `task.wait()`: the pipeline runs to its end and its result is handed back (a
failure is rethrown to the waiter). -/
def wait (w : World) (k : Nat) : World × Outcome Unit :=
  let w1 := transportStartCompleted (negotiateCompleted w k) k
  match w1.tasks[k]? with
  | some (ConnectTask.done r) => (w1, r)
  | _ => (w1, Outcome.returned ())

/-- The first block of `Connection::Stop`: wait for the recorded connect operation, catching
the exception it may rethrow. -/
def awaitConnect (w : World) : World × Outcome Unit :=
  match w.conn.mConnectTask with
  | TaskHandle.empty => (w, Outcome.returned ())
  | TaskHandle.connect k =>
    match wait w k with
    | (w1, Outcome.threw _) => (w1, Outcome.returned ())
    | r => r

/-- The overload `Connection::Send(string_t)`. -/
def Send (w : World) (data : String) : World × Outcome (Except Fault Unit) :=
  if w.conn.mState = ConnectionState.Disconnected then
    (w, Outcome.threw
      "InvalidOperationException: The Start method must be called before data can be sent.")
  else if w.conn.mState = ConnectionState.Connecting then
    (w, Outcome.threw "InvalidOperationException: The connection has not been established.")
  else
    match w.conn.mTransport with
    | none => (w, Outcome.nullDeref)
    | some tr => (w.emit (Effect.send tr.id data), Outcome.returned (tr.send data))

/-- The method `Connection::Disconnect`. -/
def Disconnect (w : World) : World :=
  if w.conn.mState ≠ ConnectionState.Disconnected then
    let w1 := SetState w ConnectionState.Disconnected
    let w2 : World :=
      { w1 with
        conn := { w1.conn with
          mConnectionId := ""
          mConnectionToken := ""
          mGroupsToken := ""
          mMessageId := "" } }
    w2.fire Event.Closed w2.conn.Closed
  else w

/-- The second block of `Connection::Stop`, run under the state lock. -/
def teardown (w : World) : World × Outcome Unit :=
  if w.conn.mState ≠ ConnectionState.Disconnected then
    match w.conn.mTransport with
    | none => (w, Outcome.nullDeref)
    | some tr =>
      let w1 := Disconnect (w.emit (Effect.abort tr.id))
      match w1.conn.mTransport with
      | some t => (w1.emit (Effect.dispose t.id), Outcome.returned ())
      | none => (w1, Outcome.returned ())
  else (w, Outcome.returned ())

/-- The method `Connection::Stop`. -/
def Stop (w : World) : World × Outcome Unit :=
  match awaitConnect w with
  | (w1, Outcome.returned _) => teardown w1
  | r => r

/-- The method `Connection::OnReconnecting`. -/
def OnReconnecting (w : World) : World :=
  w.fire Event.Reconnecting w.conn.Reconnecting

/-- The method `Connection::EnsureReconnecting`. -/
def EnsureReconnecting (w : World) : World × Bool :=
  let r := ChangeState w ConnectionState.Connected ConnectionState.Reconnecting
  let w1 := if r.2 then OnReconnecting r.1 else r.1
  (w1, decide (w1.conn.mState = ConnectionState.Reconnecting))

/-- The method `Connection::OnError`. -/
def OnError (w : World) (ex : Fault) : World :=
  w.fire (Event.Error ex) w.conn.Error

/-- Modelled from the spec: the declaration of the `Received` member (Connection.h) is not
among the sources. The specification (sections 4.3 and 9) describes the channel as a multicast
over zero or more subscribers in which a subscriber that raises a fault does not abort the
delivery to the others, the fault being caught at the dispatch site. The call
`Received(message)` therefore hands the message to every subscriber, and the first fault raised
by one of them leaves the call once all have been served. The result is the number of
subscribers that were handed the message and the fault that leaves the call. -/
def invokeReceived : List (String → Option Fault) → String → Nat × Option Fault
  | [], _ => (0, none)
  | subscriber :: rest, message =>
    ((invokeReceived rest message).1 + 1,
      match subscriber message with
      | some ex => some ex
      | none => (invokeReceived rest message).2)

/-- The call `Received(message)` inside the try block of `Connection::OnReceived`: one
delivery is recorded for every subscriber that was handed the message. -/
def callReceived (w : World) (subscribers : List (String → Option Fault)) (message : String) :
    World × Outcome Unit :=
  let r := invokeReceived subscribers message
  let w1 : World :=
    { w with
      trace := w.trace ++
        List.replicate r.1 (Effect.fired (Event.Received message) true w.conn.snapshot) }
  match r.2 with
  | none => (w1, Outcome.returned ())
  | some ex => (w1, Outcome.threw ex)

/-- The method `Connection::OnReceived`. -/
def OnReceived (w : World) (message : String) : World × Outcome Unit :=
  match w.conn.Received with
  | none => (w.fire (Event.Received message) false, Outcome.returned ())
  | some subscribers =>
    match callReceived w subscribers message with
    | (w1, Outcome.threw ex) => (OnError w1 ex, Outcome.returned ())
    | r => r

/-- The method `Connection::SetMessageId`. -/
def SetMessageId (w : World) (messageId : String) : World :=
  { w with conn := { w.conn with mMessageId := messageId } }

/-- The method `Connection::SetConnectionToken`. -/
def SetConnectionToken (w : World) (connectionToken : String) : World :=
  { w with conn := { w.conn with mConnectionToken := connectionToken } }

/-- The method `Connection::SetConnectionId`. -/
def SetConnectionId (w : World) (connectionId : String) : World :=
  { w with conn := { w.conn with mConnectionId := connectionId } }

/-- The method `Connection::SetProtocol`. -/
def SetProtocol (w : World) (protocol : String) : World :=
  { w with conn := { w.conn with mProtocol := protocol } }

/-- The method `Connection::SetGroupsToken`. -/
def SetGroupsToken (w : World) (groupsToken : String) : World :=
  { w with conn := { w.conn with mGroupsToken := groupsToken } }

/-- One atomic step of a run: a call of a public method of the connection, or the completion
of a transport task with the continuation that follows it. -/
inductive Step where
  | callStart (transport : Option Transport)
  | callStop
  | callSend (data : String)
  | callChangeState (oldState newState : ConnectionState)
  | callEnsureReconnecting
  | callDisconnect
  | callSetMessageId (messageId : String)
  | callSetConnectionToken (connectionToken : String)
  | callSetConnectionId (connectionId : String)
  | callSetGroupsToken (groupsToken : String)
  | callSetProtocol (protocol : String)
  | callOnReceived (message : String)
  | completeNegotiate (k : Nat)
  | completeTransportStart (k : Nat)

/-- The world after one step. -/
def Step.apply (w : World) : Step → World
  | Step.callStart transport => (Start w transport).1
  | Step.callStop => (Stop w).1
  | Step.callSend data => (Send w data).1
  | Step.callChangeState oldState newState => (ChangeState w oldState newState).1
  | Step.callEnsureReconnecting => (EnsureReconnecting w).1
  | Step.callDisconnect => Disconnect w
  | Step.callSetMessageId messageId => SetMessageId w messageId
  | Step.callSetConnectionToken connectionToken => SetConnectionToken w connectionToken
  | Step.callSetConnectionId connectionId => SetConnectionId w connectionId
  | Step.callSetGroupsToken groupsToken => SetGroupsToken w groupsToken
  | Step.callSetProtocol protocol => SetProtocol w protocol
  | Step.callOnReceived message => (OnReceived w message).1
  | Step.completeNegotiate k => negotiateCompleted w k
  | Step.completeTransportStart k => transportStartCompleted w k

/-- The world after a sequence of steps. -/
def run (w : World) (steps : List Step) : World :=
  steps.foldl Step.apply w

/-- Steps of a connect attempt that is neither stopped nor disconnected: further calls of
Start and the completions of transport tasks. -/
def Step.isConnectStep : Step → Bool
  | Step.callStart _ => true
  | Step.completeNegotiate _ => true
  | Step.completeTransportStart _ => true
  | _ => false

/-- A transport whose operations all succeed. -/
def Transport.succeeding (id : Nat) (connectionId connectionToken : String) : Transport :=
  { id := id
    negotiate := Except.ok { mConnectionId := connectionId, mConnectionToken := connectionToken }
    start := Except.ok ()
    send := fun _ => Except.ok () }

/-- A transport whose negotiate fails. -/
def Transport.failingNegotiate (id : Nat) (ex : Fault) : Transport :=
  { id := id
    negotiate := Except.error ex
    start := Except.ok ()
    send := fun _ => Except.ok () }

/-- A transport whose negotiate succeeds and whose start fails. -/
def Transport.failingStart (id : Nat) (connectionId connectionToken : String) (ex : Fault) :
    Transport :=
  { id := id
    negotiate := Except.ok { mConnectionId := connectionId, mConnectionToken := connectionToken }
    start := Except.error ex
    send := fun _ => Except.ok () }


/-! ## Trace queries -/

/-- The StateChanged dispatches of a trace, as (old, new) pairs in order. -/
def stateChanges : List Effect → List (ConnectionState × ConnectionState)
  | [] => []
  | Effect.fired (Event.StateChanged o n) _ _ :: es => (o, n) :: stateChanges es
  | _ :: es => stateChanges es

/-- Number of Closed dispatches in a trace. -/
def closedCount (es : List Effect) : Nat :=
  es.countP fun e => match e with
    | Effect.fired Event.Closed _ _ => true
    | _ => false

/-- Number of invocations of a Closed subscriber in a trace. -/
def closedDelivered (es : List Effect) : Nat :=
  es.countP fun e => match e with
    | Effect.fired Event.Closed true _ => true
    | _ => false

/-- Number of negotiate calls in a trace. -/
def negotiateCount (es : List Effect) : Nat :=
  es.countP fun e => match e with
    | Effect.negotiate _ => true
    | _ => false

/-- Number of transport start calls in a trace. -/
def startCount (es : List Effect) : Nat :=
  es.countP fun e => match e with
    | Effect.start _ _ => true
    | _ => false

/-- Number of calls of any kind made on transports in a trace. -/
def transportCalls (es : List Effect) : Nat :=
  es.countP fun e => match e with
    | Effect.fired _ _ _ => false
    | _ => true

/-- Number of Abort and Dispose calls in a trace. -/
def releaseCalls (es : List Effect) : Nat :=
  es.countP fun e => match e with
    | Effect.abort _ => true
    | Effect.dispose _ => true
    | _ => false

/-- The faults `Connection::Send` raises itself are the invalid-operation ones. -/
def isInvalidState (ex : Fault) : Prop :=
  "InvalidOperationException".data <+: ex.data

/-- What further Start calls and task completions preserve once an attempt is under way: the
connection is not Disconnected, the bound transport stays, no further negotiate is issued. -/
def AttemptInv (t : Transport) (n : Nat) (w : World) : Prop :=
  w.conn.mState ≠ ConnectionState.Disconnected ∧
  w.conn.mTransport = some t ∧
  negotiateCount w.trace = n

/-- The transitions the specification lists as valid: Disconnected to Connecting, Connecting
to Connected, Connected to Reconnecting, Reconnecting to Connected, and any state other than
Disconnected to Disconnected. The source has no such table; this predicate only serves to
state what `ChangeState` does on the pairs outside it. -/
def specValidTransition : ConnectionState → ConnectionState → Bool
  | ConnectionState.Disconnected, ConnectionState.Connecting => true
  | ConnectionState.Connecting, ConnectionState.Connected => true
  | ConnectionState.Connected, ConnectionState.Reconnecting => true
  | ConnectionState.Reconnecting, ConnectionState.Connected => true
  | ConnectionState.Disconnected, ConnectionState.Disconnected => false
  | _, ConnectionState.Disconnected => true
  | _, _ => false

/-- The state reached by following a list of StateChanged payloads from `s`; `none` when some
payload's old state is not the state reached before it. -/
def chainEnd : ConnectionState → List (ConnectionState × ConnectionState) →
    Option ConnectionState
  | s, [] => some s
  | s, (o, n) :: rest => if o = s then chainEnd n rest else none

/-- The StateChanged payloads emitted between `w1` and `w2` lead from the state of `w1` to the
state of `w2`. -/
def Follows (w1 w2 : World) : Prop :=
  ∃ path, stateChanges w2.trace = stateChanges w1.trace ++ path ∧
    chainEnd w1.conn.mState path = some w2.conn.mState

/-- Steps that keep a transport bound to every connection that is not Disconnected: Start is
given a transport, and ChangeState is not used to leave Disconnected. -/
def Step.keepsTransportBound : Step → Bool
  | Step.callStart none => false
  | Step.callChangeState oldState newState =>
    decide (oldState ≠ ConnectionState.Disconnected) ||
      decide (newState = ConnectionState.Disconnected)
  | _ => true

/-- A connection that is not Disconnected has a transport bound. -/
def TransportBound (w : World) : Prop :=
  w.conn.mState ≠ ConnectionState.Disconnected → w.conn.mTransport.isSome = true

/-- Whenever the state is Disconnected the four identity fields are empty. -/
def IdentityCleared (w : World) : Prop :=
  w.conn.mState = ConnectionState.Disconnected →
    w.conn.mConnectionId = "" ∧ w.conn.mConnectionToken = "" ∧
    w.conn.mGroupsToken = "" ∧ w.conn.mMessageId = ""

/-- Pipeline `k` is waiting for the negotiate task of its transport. -/
def awaitsNegotiate (w : World) (k : Nat) : Bool :=
  match w.tasks[k]? with
  | some (ConnectTask.awaitingNegotiate _) => true
  | _ => false

/-- Steps that write the identity fields only while the connection is not Disconnected: the
identity setters are called in another state, ChangeState is not used to enter Disconnected,
and the continuation after negotiate does not run (by itself or while Stop waits for it) on a
Disconnected connection. -/
def Step.keepsIdentityDiscipline (w : World) : Step → Bool
  | Step.callSetMessageId _ => decide (w.conn.mState ≠ ConnectionState.Disconnected)
  | Step.callSetConnectionToken _ => decide (w.conn.mState ≠ ConnectionState.Disconnected)
  | Step.callSetConnectionId _ => decide (w.conn.mState ≠ ConnectionState.Disconnected)
  | Step.callSetGroupsToken _ => decide (w.conn.mState ≠ ConnectionState.Disconnected)
  | Step.callChangeState _ newState => decide (newState ≠ ConnectionState.Disconnected)
  | Step.completeNegotiate k =>
    decide (w.conn.mState ≠ ConnectionState.Disconnected) || !awaitsNegotiate w k
  | Step.callStop =>
    decide (w.conn.mState ≠ ConnectionState.Disconnected) ||
      match w.conn.mConnectTask with
      | TaskHandle.empty => true
      | TaskHandle.connect k => !awaitsNegotiate w k
  | _ => true

/-- Every step of the run satisfies the condition at the world it is taken in. -/
def runsWithin (ok : World → Step → Bool) : World → List Step → Bool
  | _, [] => true
  | w, s :: rest => ok w s && runsWithin ok (s.apply w) rest

/-- A pipeline stage that has not resolved yet. -/
def ConnectTask.isPending : ConnectTask → Bool
  | ConnectTask.done _ => false
  | _ => true

/-- How one effect changes the list of live transports: a start call makes its transport
live, an Abort or a Dispose call ends that. -/
def liveStep (live : List Nat) : Effect → List Nat
  | Effect.start t _ => if t ∈ live then live else live ++ [t]
  | Effect.abort t => live.filter fun x => decide (x ≠ t)
  | Effect.dispose t => live.filter fun x => decide (x ≠ t)
  | _ => live

/-- The transports that are live at the end of a trace: their start operation was invoked and
neither Abort nor Dispose was invoked on them since. -/
def liveTransports (es : List Effect) : List Nat :=
  es.foldl liveStep []

/-- Effects that leave the live transports as they are. -/
def Effect.isNeutral : Effect → Bool
  | Effect.start _ _ => false
  | Effect.abort _ => false
  | Effect.dispose _ => false
  | _ => true

/-- Steps of an orderly use of the connection: Start is called only on a Disconnected
connection, and neither ChangeState nor a direct call of Disconnect takes the connection from
another state into Disconnected (Stop is the way down). -/
def Step.keepsSingleTransport (w : World) : Step → Bool
  | Step.callStart _ => decide (w.conn.mState = ConnectionState.Disconnected)
  | Step.callDisconnect => decide (w.conn.mState = ConnectionState.Disconnected)
  | Step.callChangeState oldState newState =>
    decide (newState ≠ ConnectionState.Disconnected) ||
      decide (w.conn.mState ≠ oldState) ||
      decide (w.conn.mState = ConnectionState.Disconnected)
  | _ => true

/-- The invariant behind the single live transport: a pending pipeline is the recorded one of
a connection that is not Disconnected and has a transport and a cancellation source bound; a
Disconnected connection has no live transport; a live transport is the bound one. -/
def SingleTransport (w : World) : Prop :=
  (∀ k stage, w.tasks[k]? = some stage → stage.isPending = true →
    w.conn.mState ≠ ConnectionState.Disconnected ∧
    w.conn.mConnectTask = TaskHandle.connect k ∧
    ∃ t cts, w.conn.mTransport = some t ∧ w.conn.mDisconnectCts = some cts) ∧
  (w.conn.mState = ConnectionState.Disconnected → liveTransports w.trace = []) ∧
  (∀ x ∈ liveTransports w.trace, ∃ t, w.conn.mTransport = some t ∧ x = t.id)

/-! ## Sample worlds -/

/-- A fresh connection on which StateChanged and Closed subscribers are registered. -/
def sampleWorld : World :=
  { conn := { Connection.init "http://host/app" with StateChanged := true, Closed := true }
    tasks := []
    ctsCount := 0
    trace := [] }

/-- A transport that negotiates the identity ("id", "token") and starts. -/
def okTransport : Transport := Transport.succeeding 1 "id" "token"

/-- The sample connection after a Start that ran to completion. -/
def connectedWorld : World := (wait (Start sampleWorld (some okTransport)).1 0).1

/-- The sample connection after a Start whose negotiate failed. -/
def negotiateFailedWorld : World :=
  (wait (Start sampleWorld (some (Transport.failingNegotiate 2 "negotiate failed"))).1 0).1

/-- The sample connection after a Start followed by Disconnect while negotiate is pending. -/
def droppedWorld : World := Disconnect (Start sampleWorld (some okTransport)).1

/-- C1: `ChangeState(expectedOld, new)` returns true exactly when the current state is
`expectedOld`; on success the state becomes `new` and the call emits exactly one StateChanged
event, with payload `(expectedOld, new)`; on failure the connection and the trace are left as
they were. -/
theorem ChangeState_contract (w : World) (expectedOld new : ConnectionState) :
    ((ChangeState w expectedOld new).2 = true ↔ w.conn.mState = expectedOld) ∧
    ((ChangeState w expectedOld new).2 = true →
      (ChangeState w expectedOld new).1.conn.mState = new ∧
      (ChangeState w expectedOld new).1.trace =
        w.trace ++ [Effect.fired (Event.StateChanged expectedOld new) w.conn.StateChanged
          ({ w.conn with mState := new } : Connection).snapshot]) ∧
    ((ChangeState w expectedOld new).2 = false →
      (ChangeState w expectedOld new).1.conn = w.conn ∧
      (ChangeState w expectedOld new).1.trace = w.trace) := by
  unfold ChangeState
  by_cases h : w.conn.mState = expectedOld
  · simp [h, SetState, World.fire, World.emit]
  · simp [h]

/-! ## Send -/

/-- C2: `Send(payload)` throws an invalid-state error exactly when the state is Disconnected
or Connecting, and then leaves the whole world (fields and trace, so no transport call) as it
was; in state Connected or Reconnecting it makes exactly one call, the send of that payload on
the bound transport, changes no field, and returns what that send returns. -/
theorem Send_contract (w : World) (payload : String) :
    ((∃ ex, (Send w payload).2 = Outcome.threw ex ∧ isInvalidState ex) ↔
      (w.conn.mState = ConnectionState.Disconnected ∨
        w.conn.mState = ConnectionState.Connecting)) ∧
    ((∃ ex, (Send w payload).2 = Outcome.threw ex) →
      (Send w payload).1 = w ∧
      transportCalls (Send w payload).1.trace = transportCalls w.trace) ∧
    (∀ tr, w.conn.mTransport = some tr →
      (w.conn.mState = ConnectionState.Connected ∨
        w.conn.mState = ConnectionState.Reconnecting) →
      (Send w payload).1.trace = w.trace ++ [Effect.send tr.id payload] ∧
      transportCalls (Send w payload).1.trace = transportCalls w.trace + 1 ∧
      (Send w payload).1.conn = w.conn ∧
      (Send w payload).2 = Outcome.returned (tr.send payload)) := by
  unfold Send
  refine ⟨?_, ?_, ?_⟩
  · cases hs : w.conn.mState <;> cases ht : w.conn.mTransport <;>
      simp [isInvalidState]
  · cases hs : w.conn.mState <;> cases ht : w.conn.mTransport <;> simp
  · intro tr ht hs
    rcases hs with hs | hs <;> simp [hs, ht, World.emit, transportCalls]

/-! ## Start -/

/-- Start on a connection that is not Disconnected performs only the bookkeeping that precedes
the transition: the recorded task is reset and a new cancellation source is installed. -/
theorem Start_of_ne_Disconnected (w : World) (transport : Option Transport)
    (h : w.conn.mState ≠ ConnectionState.Disconnected) :
    Start w transport =
      ({ w with
          conn := { w.conn with
            mConnectTask := TaskHandle.empty
            mDisconnectCts := some w.ctsCount }
          ctsCount := w.ctsCount + 1 },
        Outcome.returned TaskHandle.empty) := by
  simp [Start, ChangeState, h]

/-- Start on a Disconnected connection with a transport: the world it leaves and the pipeline
it returns. -/
theorem Start_of_Disconnected (w : World) (t : Transport)
    (h : w.conn.mState = ConnectionState.Disconnected) :
    Start w (some t) =
      ({ conn := { w.conn with
            mState := ConnectionState.Connecting
            mTransport := some t
            mConnectTask := TaskHandle.connect w.tasks.length
            mDisconnectCts := some w.ctsCount }
         tasks := w.tasks ++ [ConnectTask.awaitingNegotiate t]
         ctsCount := w.ctsCount + 1
         trace := w.trace ++
           [Effect.fired
              (Event.StateChanged ConnectionState.Disconnected ConnectionState.Connecting)
              w.conn.StateChanged
              { mState := ConnectionState.Connecting
                mConnectionId := w.conn.mConnectionId
                mConnectionToken := w.conn.mConnectionToken
                mGroupsToken := w.conn.mGroupsToken
                mMessageId := w.conn.mMessageId },
            Effect.negotiate t.id] },
        Outcome.returned (TaskHandle.connect w.tasks.length)) := by
  simp [Start, ChangeState, h, SetState, Negotiate, World.fire, World.emit, Connection.snapshot]

/-- C3 (evaluation at the failing input): on a fresh connection the first Start returns the
pipeline it created and records it; a second Start issued right after it returns the
default-constructed task, not the first operation, and the record of the first operation is
gone. The state left Disconnected once. -/
theorem Start_twice_returns_empty_task :
    (Start (World.init "http://host/app") (some (Transport.succeeding 1 "id" "token"))).2 =
      Outcome.returned (TaskHandle.connect 0) ∧
    (Start (World.init "http://host/app")
      (some (Transport.succeeding 1 "id" "token"))).1.conn.mConnectTask = TaskHandle.connect 0 ∧
    (Start (Start (World.init "http://host/app") (some (Transport.succeeding 1 "id" "token"))).1
      (some (Transport.succeeding 1 "id" "token"))).2 = Outcome.returned TaskHandle.empty ∧
    (Start (Start (World.init "http://host/app") (some (Transport.succeeding 1 "id" "token"))).1
      (some (Transport.succeeding 1 "id" "token"))).1.conn.mConnectTask = TaskHandle.empty ∧
    stateChanges
      (Start (Start (World.init "http://host/app") (some (Transport.succeeding 1 "id" "token"))).1
        (some (Transport.succeeding 1 "id" "token"))).1.trace =
      [(ConnectionState.Disconnected, ConnectionState.Connecting)] := by
  decide

/-! ## Frame facts about the continuations -/

theorem stateChanges_append (es fs : List Effect) :
    stateChanges (es ++ fs) = stateChanges es ++ stateChanges fs := by
  induction es with
  | nil => rfl
  | cons e es ih =>
    cases e with
    | fired ev d s => cases ev <;> simp [stateChanges, ih]
    | _ => simp [stateChanges, ih]

theorem negotiateCount_append (es fs : List Effect) :
    negotiateCount (es ++ fs) = negotiateCount es + negotiateCount fs := by
  simp [negotiateCount]

theorem StartTransport_conn (w : World) : (StartTransport w).1.conn = w.conn := by
  unfold StartTransport
  split <;> simp [World.emit]

theorem StartTransport_negotiateCount (w : World) :
    negotiateCount (StartTransport w).1.trace = negotiateCount w.trace := by
  unfold StartTransport
  split <;> simp [World.emit, negotiateCount]

theorem negotiateCompleted_mState (w : World) (k : Nat) :
    (negotiateCompleted w k).conn.mState = w.conn.mState := by
  unfold negotiateCompleted
  split
  · split <;> simp [World.setTask, StartTransport_conn]
  · rfl

theorem negotiateCompleted_mTransport (w : World) (k : Nat) :
    (negotiateCompleted w k).conn.mTransport = w.conn.mTransport := by
  unfold negotiateCompleted
  split
  · split <;> simp [World.setTask, StartTransport_conn]
  · rfl

theorem negotiateCompleted_negotiateCount (w : World) (k : Nat) :
    negotiateCount (negotiateCompleted w k).trace = negotiateCount w.trace := by
  unfold negotiateCompleted
  split
  · split <;> simp [World.setTask, StartTransport_negotiateCount]
  · rfl

theorem ChangeState_tasks (w : World) (o n : ConnectionState) :
    (ChangeState w o n).1.tasks = w.tasks := by
  unfold ChangeState
  split <;> simp [SetState, World.fire, World.emit]

theorem ChangeState_mTransport (w : World) (o n : ConnectionState) :
    (ChangeState w o n).1.conn.mTransport = w.conn.mTransport := by
  unfold ChangeState
  split <;> simp [SetState, World.fire, World.emit]

theorem ChangeState_negotiateCount (w : World) (o n : ConnectionState) :
    negotiateCount (ChangeState w o n).1.trace = negotiateCount w.trace := by
  unfold ChangeState
  split <;> simp [SetState, World.fire, World.emit, negotiateCount]

theorem ChangeState_ne_Disconnected (w : World) (o n : ConnectionState)
    (h : w.conn.mState ≠ ConnectionState.Disconnected) (hn : n ≠ ConnectionState.Disconnected) :
    (ChangeState w o n).1.conn.mState ≠ ConnectionState.Disconnected := by
  unfold ChangeState
  split <;> simp [SetState, World.fire, World.emit, h, hn]

theorem transportStartCompleted_mTransport (w : World) (k : Nat) :
    (transportStartCompleted w k).conn.mTransport = w.conn.mTransport := by
  unfold transportStartCompleted
  split
  · split <;> simp [World.setTask, ChangeState_mTransport]
  · rfl

theorem transportStartCompleted_negotiateCount (w : World) (k : Nat) :
    negotiateCount (transportStartCompleted w k).trace = negotiateCount w.trace := by
  unfold transportStartCompleted
  split
  · split <;> simp [World.setTask, ChangeState_negotiateCount]
  · rfl

theorem transportStartCompleted_ne_Disconnected (w : World) (k : Nat)
    (h : w.conn.mState ≠ ConnectionState.Disconnected) :
    (transportStartCompleted w k).conn.mState ≠ ConnectionState.Disconnected := by
  unfold transportStartCompleted
  split
  · split
    · simpa [World.setTask] using h
    · simpa [World.setTask] using ChangeState_ne_Disconnected w _ _ h (by decide)
  · exact h

theorem AttemptInv_step (t : Transport) (n : Nat) (w : World) (s : Step)
    (hs : s.isConnectStep = true) (hw : AttemptInv t n w) : AttemptInv t n (s.apply w) := by
  obtain ⟨h1, h2, h3⟩ := hw
  cases s <;> simp [Step.isConnectStep] at hs
  · simp [Step.apply, Start_of_ne_Disconnected w _ h1, AttemptInv, h1, h2, h3]
  · exact ⟨by simpa [Step.apply, negotiateCompleted_mState] using h1,
      by simpa [Step.apply, negotiateCompleted_mTransport] using h2,
      by simpa [Step.apply, negotiateCompleted_negotiateCount] using h3⟩
  · exact ⟨transportStartCompleted_ne_Disconnected w _ h1,
      by simpa [Step.apply, transportStartCompleted_mTransport] using h2,
      by simpa [Step.apply, transportStartCompleted_negotiateCount] using h3⟩

theorem AttemptInv_run (t : Transport) (n : Nat) (steps : List Step) :
    ∀ w : World, (∀ s ∈ steps, s.isConnectStep = true) → AttemptInv t n w →
      AttemptInv t n (run w steps) := by
  induction steps with
  | nil => intro w _ hw; simpa [run] using hw
  | cons s rest ih =>
    intro w hs hw
    have h1 : AttemptInv t n (s.apply w) :=
      AttemptInv_step t n w s (hs s (List.mem_cons_self _ _)) hw
    have h2 := ih (s.apply w) (fun x hx => hs x (List.mem_cons_of_mem _ hx)) h1
    simpa [run] using h2

/-- C4: a Start on a Disconnected connection followed by any sequence of further Start calls
and task completions (no Stop, no Disconnect). The first call issues one negotiate, on its own
transport; over the whole run negotiate is invoked exactly once, the first call's transport is
the bound transport at the end, and every later Start call leaves the trace as it found it, so
it invokes neither negotiate nor the transport start. -/
theorem Start_sequence_negotiates_once (w : World) (t : Transport) (steps : List Step)
    (h : w.conn.mState = ConnectionState.Disconnected)
    (hsteps : ∀ s ∈ steps, s.isConnectStep = true) :
    negotiateCount (Start w (some t)).1.trace = negotiateCount w.trace + 1 ∧
    (∃ e, (Start w (some t)).1.trace = w.trace ++ [e, Effect.negotiate t.id]) ∧
    negotiateCount (run (Start w (some t)).1 steps).trace = negotiateCount w.trace + 1 ∧
    (run (Start w (some t)).1 steps).conn.mTransport = some t ∧
    (∀ pre later post, steps = pre ++ Step.callStart later :: post →
      (Start (run (Start w (some t)).1 pre) later).1.trace =
        (run (Start w (some t)).1 pre).trace ∧
      (Start (run (Start w (some t)).1 pre) later).1.conn.mTransport = some t) := by
  have h0 : AttemptInv t (negotiateCount w.trace + 1) (Start w (some t)).1 := by
    rw [Start_of_Disconnected w t h]
    refine ⟨by simp, rfl, ?_⟩
    simp [negotiateCount_append, negotiateCount]
  refine ⟨h0.2.2, ?_, (AttemptInv_run t _ steps _ hsteps h0).2.2,
    (AttemptInv_run t _ steps _ hsteps h0).2.1, ?_⟩
  · rw [Start_of_Disconnected w t h]
    exact ⟨_, rfl⟩
  · intro pre later post hsplit
    have hpre : ∀ s ∈ pre, s.isConnectStep = true := by
      intro s hs
      exact hsteps s (by rw [hsplit]; exact List.mem_append_left _ hs)
    have h1 := AttemptInv_run t _ pre _ hpre h0
    rw [Start_of_ne_Disconnected _ later h1.1]
    exact ⟨rfl, h1.2.1⟩

/-! ## The connect pipeline -/

/-- C5: Start on a Disconnected connection with a transport whose negotiate succeeds with
response `r` and whose start succeeds: once the returned operation has run to completion its
result is success, the state is Connected, and connectionId and connectionToken are those of
`r`. -/
theorem Start_success (w : World) (t : Transport) (r : NegotiationResponse)
    (h : w.conn.mState = ConnectionState.Disconnected)
    (hn : t.negotiate = Except.ok r) (hs : t.start = Except.ok ()) :
    (Start w (some t)).2 = Outcome.returned (TaskHandle.connect w.tasks.length) ∧
    (wait (Start w (some t)).1 w.tasks.length).2 = Outcome.returned () ∧
    (wait (Start w (some t)).1 w.tasks.length).1.tasks[w.tasks.length]? =
      some (ConnectTask.done (Outcome.returned ())) ∧
    (wait (Start w (some t)).1 w.tasks.length).1.conn.mState = ConnectionState.Connected ∧
    (wait (Start w (some t)).1 w.tasks.length).1.conn.mConnectionId = r.mConnectionId ∧
    (wait (Start w (some t)).1 w.tasks.length).1.conn.mConnectionToken = r.mConnectionToken := by
  rw [Start_of_Disconnected w t h]
  simp [wait, negotiateCompleted, transportStartCompleted, StartTransport, ChangeState, SetState,
    World.setTask, World.fire, World.emit, hn, hs]

/-- C6: Start on a Disconnected connection with a transport whose negotiate succeeds with
response `r` and whose start fails with `e`: once the returned operation has run to completion
its result is the failure `e`, connectionId and connectionToken hold the values of `r`, and the
state is Connecting, the only state change of the attempt being Disconnected to Connecting. -/
theorem Start_transport_start_fails (w : World) (t : Transport) (r : NegotiationResponse)
    (e : Fault) (h : w.conn.mState = ConnectionState.Disconnected)
    (hn : t.negotiate = Except.ok r) (hs : t.start = Except.error e) :
    (Start w (some t)).2 = Outcome.returned (TaskHandle.connect w.tasks.length) ∧
    (wait (Start w (some t)).1 w.tasks.length).2 = Outcome.threw e ∧
    (wait (Start w (some t)).1 w.tasks.length).1.tasks[w.tasks.length]? =
      some (ConnectTask.done (Outcome.threw e)) ∧
    (wait (Start w (some t)).1 w.tasks.length).1.conn.mConnectionId = r.mConnectionId ∧
    (wait (Start w (some t)).1 w.tasks.length).1.conn.mConnectionToken = r.mConnectionToken ∧
    (wait (Start w (some t)).1 w.tasks.length).1.conn.mState = ConnectionState.Connecting ∧
    stateChanges (wait (Start w (some t)).1 w.tasks.length).1.trace =
      stateChanges w.trace ++ [(ConnectionState.Disconnected, ConnectionState.Connecting)] := by
  rw [Start_of_Disconnected w t h]
  simp [wait, negotiateCompleted, transportStartCompleted, StartTransport, ChangeState, SetState,
    World.setTask, World.fire, World.emit, hn, hs, stateChanges_append, stateChanges]

/-- C7: Start on a Disconnected connection with a transport whose negotiate fails with `e`:
once the returned operation has run to completion its result is the failure `e`, the
transport start was never called (the attempt made the negotiate call and nothing else on a
transport), connectionId and connectionToken are as before the call, and the state is
Connecting, the only state change being the initial Disconnected to Connecting. -/
theorem Start_negotiate_fails (w : World) (t : Transport) (e : Fault)
    (h : w.conn.mState = ConnectionState.Disconnected)
    (hn : t.negotiate = Except.error e) :
    (Start w (some t)).2 = Outcome.returned (TaskHandle.connect w.tasks.length) ∧
    (wait (Start w (some t)).1 w.tasks.length).2 = Outcome.threw e ∧
    (wait (Start w (some t)).1 w.tasks.length).1.tasks[w.tasks.length]? =
      some (ConnectTask.done (Outcome.threw e)) ∧
    startCount (wait (Start w (some t)).1 w.tasks.length).1.trace = startCount w.trace ∧
    (wait (Start w (some t)).1 w.tasks.length).1.trace = (Start w (some t)).1.trace ∧
    (wait (Start w (some t)).1 w.tasks.length).1.conn.mConnectionId = w.conn.mConnectionId ∧
    (wait (Start w (some t)).1 w.tasks.length).1.conn.mConnectionToken =
      w.conn.mConnectionToken ∧
    (wait (Start w (some t)).1 w.tasks.length).1.conn.mState = ConnectionState.Connecting ∧
    stateChanges (wait (Start w (some t)).1 w.tasks.length).1.trace =
      stateChanges w.trace ++ [(ConnectionState.Disconnected, ConnectionState.Connecting)] := by
  rw [Start_of_Disconnected w t h]
  simp [wait, negotiateCompleted, transportStartCompleted, World.setTask, hn,
    stateChanges_append, stateChanges, startCount]

/-! ## Waiting for the recorded operation -/

theorem wait_fst (w : World) (k : Nat) :
    (wait w k).1 = transportStartCompleted (negotiateCompleted w k) k := by
  unfold wait
  simp only []
  split <;> rfl

theorem awaitConnect_fst (w : World) (k : Nat) (hk : w.conn.mConnectTask = TaskHandle.connect k) :
    (awaitConnect w).1 = transportStartCompleted (negotiateCompleted w k) k := by
  unfold awaitConnect
  rw [hk]
  simp only []
  split
  · next w1 ex heq => rw [← wait_fst, heq]
  · rw [wait_fst]

theorem awaitConnect_empty (w : World) (hk : w.conn.mConnectTask = TaskHandle.empty) :
    awaitConnect w = (w, Outcome.returned ()) := by
  unfold awaitConnect
  rw [hk]

theorem awaitConnect_not_threw (w : World) (ex : Fault) :
    (awaitConnect w).2 ≠ Outcome.threw ex := by
  unfold awaitConnect
  split
  · simp
  · split
    · simp
    · next r hr =>
      intro h
      exact hr (wait w _).1 ex (by rw [← h])

theorem StartTransport_closedCount (w : World) :
    closedCount (StartTransport w).1.trace = closedCount w.trace := by
  unfold StartTransport
  split <;> simp [World.emit, closedCount]

theorem StartTransport_releaseCalls (w : World) :
    releaseCalls (StartTransport w).1.trace = releaseCalls w.trace := by
  unfold StartTransport
  split <;> simp [World.emit, releaseCalls]

theorem StartTransport_stateChanges (w : World) :
    stateChanges (StartTransport w).1.trace = stateChanges w.trace := by
  unfold StartTransport
  split <;> simp [World.emit, stateChanges_append, stateChanges]

theorem negotiateCompleted_closedCount (w : World) (k : Nat) :
    closedCount (negotiateCompleted w k).trace = closedCount w.trace := by
  unfold negotiateCompleted
  split
  · split <;> simp [World.setTask, StartTransport_closedCount]
  · rfl

theorem negotiateCompleted_releaseCalls (w : World) (k : Nat) :
    releaseCalls (negotiateCompleted w k).trace = releaseCalls w.trace := by
  unfold negotiateCompleted
  split
  · split <;> simp [World.setTask, StartTransport_releaseCalls]
  · rfl

theorem negotiateCompleted_stateChanges (w : World) (k : Nat) :
    stateChanges (negotiateCompleted w k).trace = stateChanges w.trace := by
  unfold negotiateCompleted
  split
  · split <;> simp [World.setTask, StartTransport_stateChanges]
  · rfl

theorem ChangeState_closedCount (w : World) (o n : ConnectionState) :
    closedCount (ChangeState w o n).1.trace = closedCount w.trace := by
  unfold ChangeState
  split <;> simp [SetState, World.fire, World.emit, closedCount]

theorem ChangeState_releaseCalls (w : World) (o n : ConnectionState) :
    releaseCalls (ChangeState w o n).1.trace = releaseCalls w.trace := by
  unfold ChangeState
  split <;> simp [SetState, World.fire, World.emit, releaseCalls]

theorem transportStartCompleted_closedCount (w : World) (k : Nat) :
    closedCount (transportStartCompleted w k).trace = closedCount w.trace := by
  unfold transportStartCompleted
  split
  · split <;> simp [World.setTask, ChangeState_closedCount]
  · rfl

theorem transportStartCompleted_releaseCalls (w : World) (k : Nat) :
    releaseCalls (transportStartCompleted w k).trace = releaseCalls w.trace := by
  unfold transportStartCompleted
  split
  · split <;> simp [World.setTask, ChangeState_releaseCalls]
  · rfl

/-- On a Disconnected connection the completion of a transport start changes neither the
connection nor the trace: its Connecting to Connected transition is refused. -/
theorem transportStartCompleted_of_Disconnected (w : World) (k : Nat)
    (h : w.conn.mState = ConnectionState.Disconnected) :
    (transportStartCompleted w k).conn = w.conn ∧
    (transportStartCompleted w k).trace = w.trace := by
  unfold transportStartCompleted
  split
  · split <;> simp [World.setTask, ChangeState, h]
  · exact ⟨rfl, rfl⟩

theorem awaitConnect_mTransport (w : World) :
    (awaitConnect w).1.conn.mTransport = w.conn.mTransport := by
  cases hk : w.conn.mConnectTask with
  | empty => rw [awaitConnect_empty w hk]
  | connect k =>
    rw [awaitConnect_fst w k hk, transportStartCompleted_mTransport,
      negotiateCompleted_mTransport]

theorem awaitConnect_ne_Disconnected (w : World)
    (h : w.conn.mState ≠ ConnectionState.Disconnected) :
    (awaitConnect w).1.conn.mState ≠ ConnectionState.Disconnected := by
  cases hk : w.conn.mConnectTask with
  | empty => rw [awaitConnect_empty w hk]; exact h
  | connect k =>
    rw [awaitConnect_fst w k hk]
    apply transportStartCompleted_ne_Disconnected
    rw [negotiateCompleted_mState]
    exact h

theorem awaitConnect_closedCount (w : World) :
    closedCount (awaitConnect w).1.trace = closedCount w.trace := by
  cases hk : w.conn.mConnectTask with
  | empty => rw [awaitConnect_empty w hk]
  | connect k =>
    rw [awaitConnect_fst w k hk, transportStartCompleted_closedCount,
      negotiateCompleted_closedCount]

theorem awaitConnect_releaseCalls (w : World) :
    releaseCalls (awaitConnect w).1.trace = releaseCalls w.trace := by
  cases hk : w.conn.mConnectTask with
  | empty => rw [awaitConnect_empty w hk]
  | connect k =>
    rw [awaitConnect_fst w k hk, transportStartCompleted_releaseCalls,
      negotiateCompleted_releaseCalls]

/-- Waiting on a Disconnected connection keeps it Disconnected and fires no StateChanged. -/
theorem awaitConnect_of_Disconnected (w : World)
    (h : w.conn.mState = ConnectionState.Disconnected) :
    (awaitConnect w).1.conn.mState = ConnectionState.Disconnected ∧
    stateChanges (awaitConnect w).1.trace = stateChanges w.trace := by
  cases hk : w.conn.mConnectTask with
  | empty => rw [awaitConnect_empty w hk]; exact ⟨h, rfl⟩
  | connect k =>
    have h1 : (negotiateCompleted w k).conn.mState = ConnectionState.Disconnected := by
      rw [negotiateCompleted_mState]; exact h
    obtain ⟨hc, ht⟩ := transportStartCompleted_of_Disconnected _ k h1
    rw [awaitConnect_fst w k hk, hc, ht]
    exact ⟨h1, negotiateCompleted_stateChanges w k⟩

/-! ## Stop -/

/-- The teardown block on a connection that is not Disconnected and has a transport bound. -/
theorem teardown_of_active (w : World) (tr : Transport)
    (h : w.conn.mState ≠ ConnectionState.Disconnected) (ht : w.conn.mTransport = some tr) :
    (teardown w).2 = Outcome.returned () ∧
    (teardown w).1.conn.mState = ConnectionState.Disconnected ∧
    (teardown w).1.conn.mConnectionId = "" ∧
    (teardown w).1.conn.mConnectionToken = "" ∧
    (teardown w).1.conn.mGroupsToken = "" ∧
    (teardown w).1.conn.mMessageId = "" ∧
    closedCount (teardown w).1.trace = closedCount w.trace + 1 ∧
    (teardown w).1.trace = w.trace ++
      [Effect.abort tr.id,
       Effect.fired (Event.StateChanged w.conn.mState ConnectionState.Disconnected)
         w.conn.StateChanged
         { mState := ConnectionState.Disconnected
           mConnectionId := w.conn.mConnectionId
           mConnectionToken := w.conn.mConnectionToken
           mGroupsToken := w.conn.mGroupsToken
           mMessageId := w.conn.mMessageId },
       Effect.fired Event.Closed w.conn.Closed
         { mState := ConnectionState.Disconnected
           mConnectionId := ""
           mConnectionToken := ""
           mGroupsToken := ""
           mMessageId := "" },
       Effect.dispose tr.id] := by
  simp [teardown, h, ht, Disconnect, SetState, World.fire, World.emit, Connection.snapshot,
    closedCount]

theorem teardown_of_Disconnected (w : World)
    (h : w.conn.mState = ConnectionState.Disconnected) :
    teardown w = (w, Outcome.returned ()) := by
  simp [teardown, h]

theorem ChangeState_closedDelivered (w : World) (o n : ConnectionState) :
    closedDelivered (ChangeState w o n).1.trace = closedDelivered w.trace := by
  unfold ChangeState
  split <;> simp [SetState, World.fire, World.emit, closedDelivered]

theorem ChangeState_Closed (w : World) (o n : ConnectionState) :
    (ChangeState w o n).1.conn.Closed = w.conn.Closed := by
  unfold ChangeState
  split <;> simp [SetState, World.fire, World.emit]

theorem StartTransport_closedDelivered (w : World) :
    closedDelivered (StartTransport w).1.trace = closedDelivered w.trace := by
  unfold StartTransport
  split <;> simp [World.emit, closedDelivered]

theorem negotiateCompleted_closedDelivered (w : World) (k : Nat) :
    closedDelivered (negotiateCompleted w k).trace = closedDelivered w.trace := by
  unfold negotiateCompleted
  split
  · split <;> simp [World.setTask, StartTransport_closedDelivered]
  · rfl

theorem negotiateCompleted_Closed (w : World) (k : Nat) :
    (negotiateCompleted w k).conn.Closed = w.conn.Closed := by
  unfold negotiateCompleted
  split
  · split <;> simp [World.setTask, StartTransport_conn]
  · rfl

theorem transportStartCompleted_closedDelivered (w : World) (k : Nat) :
    closedDelivered (transportStartCompleted w k).trace = closedDelivered w.trace := by
  unfold transportStartCompleted
  split
  · split <;> simp [World.setTask, ChangeState_closedDelivered]
  · rfl

theorem transportStartCompleted_Closed (w : World) (k : Nat) :
    (transportStartCompleted w k).conn.Closed = w.conn.Closed := by
  unfold transportStartCompleted
  split
  · split <;> simp [World.setTask, ChangeState_Closed]
  · rfl

theorem awaitConnect_closedDelivered (w : World) :
    closedDelivered (awaitConnect w).1.trace = closedDelivered w.trace := by
  cases hk : w.conn.mConnectTask with
  | empty => rw [awaitConnect_empty w hk]
  | connect k =>
    rw [awaitConnect_fst w k hk, transportStartCompleted_closedDelivered,
      negotiateCompleted_closedDelivered]

theorem awaitConnect_Closed (w : World) :
    (awaitConnect w).1.conn.Closed = w.conn.Closed := by
  cases hk : w.conn.mConnectTask with
  | empty => rw [awaitConnect_empty w hk]
  | connect k =>
    rw [awaitConnect_fst w k hk, transportStartCompleted_Closed, negotiateCompleted_Closed]

/-- The teardown block invokes a registered Closed subscriber once. -/
theorem teardown_closedDelivered (w : World) (tr : Transport)
    (h : w.conn.mState ≠ ConnectionState.Disconnected) (ht : w.conn.mTransport = some tr) :
    closedDelivered (teardown w).1.trace =
      closedDelivered w.trace + (if w.conn.Closed = true then 1 else 0) := by
  cases hc : w.conn.Closed <;>
    simp [teardown, h, ht, Disconnect, SetState, World.fire, World.emit, closedDelivered, hc]

/-- With a transport and a cancellation source bound, waiting for a pipeline that has not
crashed does not reach a null pointer. -/
theorem wait_ne_nullDeref (w : World) (k : Nat) (tr : Transport) (cts : Nat)
    (ht : w.conn.mTransport = some tr) (hc : w.conn.mDisconnectCts = some cts)
    (hk : w.tasks[k]? ≠ some (ConnectTask.done Outcome.nullDeref)) :
    (wait w k).2 ≠ Outcome.nullDeref := by
  unfold wait
  cases hq : w.tasks[k]? with
  | none => simp [negotiateCompleted, transportStartCompleted, hq]
  | some stage =>
    have hlt : k < w.tasks.length := by
      by_contra hge
      rw [List.getElem?_eq_none (Nat.le_of_not_lt hge)] at hq
      cases hq
    cases stage with
    | awaitingNegotiate tr1 =>
      cases hneg : tr1.negotiate with
      | error e =>
        simp [negotiateCompleted, transportStartCompleted, hq, hneg, World.setTask, hlt]
      | ok r =>
        cases hst : tr.start with
        | error e =>
          simp [negotiateCompleted, transportStartCompleted, hq, hneg, World.setTask, hlt,
            StartTransport, ht, hc, World.emit, hst, ChangeState_tasks]
        | ok u =>
          simp [negotiateCompleted, transportStartCompleted, hq, hneg, World.setTask, hlt,
            StartTransport, ht, hc, World.emit, hst, ChangeState_tasks]
    | awaitingStart tr1 =>
      cases hst : tr1.start with
      | error e =>
        simp [negotiateCompleted, transportStartCompleted, hq, World.setTask, hlt, hst,
          ChangeState_tasks]
      | ok u =>
        simp [negotiateCompleted, transportStartCompleted, hq, World.setTask, hlt, hst,
          ChangeState_tasks]
    | done r =>
      rw [hq] at hk
      simp [negotiateCompleted, transportStartCompleted, hq]
      intro hr
      exact hk (by rw [hr])

theorem awaitConnect_returns (w : World) (tr : Transport) (cts : Nat)
    (ht : w.conn.mTransport = some tr) (hc : w.conn.mDisconnectCts = some cts)
    (hk : ∀ k, w.conn.mConnectTask = TaskHandle.connect k →
      w.tasks[k]? ≠ some (ConnectTask.done Outcome.nullDeref)) :
    (awaitConnect w).2 = Outcome.returned () := by
  cases hm : w.conn.mConnectTask with
  | empty => rw [awaitConnect_empty w hm]
  | connect k =>
    have h1 := wait_ne_nullDeref w k tr cts ht hc (hk k hm)
    unfold awaitConnect
    rw [hm]
    simp only []
    split
    · rfl
    · next r hr =>
      cases hr2 : (wait w k).2 with
      | returned u => rfl
      | threw ex =>
        have hp : wait w k = ((wait w k).1, Outcome.threw ex) := by rw [← hr2]
        exact absurd hp (hr _ ex)
      | nullDeref => exact absurd hr2 h1

theorem Stop_of_returned (w : World) (h : (awaitConnect w).2 = Outcome.returned ()) :
    Stop w = teardown (awaitConnect w).1 := by
  unfold Stop
  split
  · next w1 u heq => rw [heq]
  · next r hr =>
    have hp : awaitConnect w = ((awaitConnect w).1, Outcome.returned ()) := by rw [← h]
    exact absurd hp (hr _ ())

theorem Stop_of_not_returned (w : World) (h : (awaitConnect w).2 ≠ Outcome.returned ()) :
    Stop w = awaitConnect w := by
  unfold Stop
  split
  · next w1 u heq => rw [heq] at h; exact absurd rfl h
  · rfl

/-- C8: Stop on a connection whose state is Connecting, Connected or Reconnecting. It never
throws. Whenever it returns, the state is Disconnected, the four identity fields are empty and
exactly one Closed event was fired during the call (a registered Closed subscriber was invoked
exactly once). It does return when a transport and a cancellation source are bound and the
recorded connect operation has not crashed. -/
theorem Stop_from_active (w : World) (h : w.conn.mState ≠ ConnectionState.Disconnected) :
    (∀ ex, (Stop w).2 ≠ Outcome.threw ex) ∧
    ((Stop w).2 = Outcome.returned () →
      (Stop w).1.conn.mState = ConnectionState.Disconnected ∧
      (Stop w).1.conn.mConnectionId = "" ∧
      (Stop w).1.conn.mConnectionToken = "" ∧
      (Stop w).1.conn.mGroupsToken = "" ∧
      (Stop w).1.conn.mMessageId = "" ∧
      closedCount (Stop w).1.trace = closedCount w.trace + 1 ∧
      closedDelivered (Stop w).1.trace =
        closedDelivered w.trace + (if w.conn.Closed = true then 1 else 0)) ∧
    (∀ tr cts, w.conn.mTransport = some tr → w.conn.mDisconnectCts = some cts →
      (∀ k, w.conn.mConnectTask = TaskHandle.connect k →
        w.tasks[k]? ≠ some (ConnectTask.done Outcome.nullDeref)) →
      (Stop w).2 = Outcome.returned ()) := by
  have hne := awaitConnect_ne_Disconnected w h
  have key : ∀ tr, w.conn.mTransport = some tr → (awaitConnect w).2 = Outcome.returned () →
      (Stop w).2 = Outcome.returned () ∧
      (Stop w).1.conn.mState = ConnectionState.Disconnected ∧
      (Stop w).1.conn.mConnectionId = "" ∧
      (Stop w).1.conn.mConnectionToken = "" ∧
      (Stop w).1.conn.mGroupsToken = "" ∧
      (Stop w).1.conn.mMessageId = "" ∧
      closedCount (Stop w).1.trace = closedCount w.trace + 1 ∧
      closedDelivered (Stop w).1.trace =
        closedDelivered w.trace + (if w.conn.Closed = true then 1 else 0) := by
    intro tr ht hr
    have ht1 : (awaitConnect w).1.conn.mTransport = some tr := by
      rw [awaitConnect_mTransport]; exact ht
    obtain ⟨t1, t2, t3, t4, t5, t6, t7, _⟩ := teardown_of_active _ tr hne ht1
    rw [Stop_of_returned w hr]
    exact ⟨t1, t2, t3, t4, t5, t6, by rw [t7, awaitConnect_closedCount],
      by rw [teardown_closedDelivered _ tr hne ht1, awaitConnect_closedDelivered,
        awaitConnect_Closed]⟩
  refine ⟨?_, ?_, ?_⟩
  · intro ex hex
    by_cases hr : (awaitConnect w).2 = Outcome.returned ()
    · rw [Stop_of_returned w hr] at hex
      cases ht : (awaitConnect w).1.conn.mTransport with
      | none => simp [teardown, hne, ht] at hex
      | some tr => rw [(teardown_of_active _ tr hne ht).1] at hex; cases hex
    · rw [Stop_of_not_returned w hr] at hex
      exact awaitConnect_not_threw w ex hex
  · intro hret
    by_cases hr : (awaitConnect w).2 = Outcome.returned ()
    · cases ht : w.conn.mTransport with
      | none =>
        have ht1 : (awaitConnect w).1.conn.mTransport = none := by
          rw [awaitConnect_mTransport]; exact ht
        rw [Stop_of_returned w hr] at hret
        simp [teardown, hne, ht1] at hret
      | some tr => exact (key tr ht hr).2
    · rw [Stop_of_not_returned w hr] at hret
      exact absurd hret hr
  · intro tr cts ht hc hk
    exact (key tr ht (awaitConnect_returns w tr cts ht hc hk)).1

theorem negotiateCompleted_of_done (w : World) (k : Nat) (r : Outcome Unit)
    (h : w.tasks[k]? = some (ConnectTask.done r)) : negotiateCompleted w k = w := by
  simp [negotiateCompleted, h]

theorem transportStartCompleted_of_done (w : World) (k : Nat) (r : Outcome Unit)
    (h : w.tasks[k]? = some (ConnectTask.done r)) : transportStartCompleted w k = w := by
  simp [transportStartCompleted, h]

/-- Waiting for a pipeline that has already resolved changes nothing and hands back its
result. -/
theorem wait_of_done (w : World) (k : Nat) (r : Outcome Unit)
    (h : w.tasks[k]? = some (ConnectTask.done r)) : wait w k = (w, r) := by
  simp [wait, negotiateCompleted_of_done w k r h, transportStartCompleted_of_done w k r h, h]

/-- The continuation after negotiate writes at most the identity pair of the connection. -/
theorem negotiateCompleted_conn (w : World) (k : Nat) :
    ∃ connectionId connectionToken,
      (negotiateCompleted w k).conn =
        { w.conn with mConnectionId := connectionId, mConnectionToken := connectionToken } := by
  unfold negotiateCompleted
  split
  · split
    · exact ⟨w.conn.mConnectionId, w.conn.mConnectionToken, rfl⟩
    · next response _ =>
      exact ⟨response.mConnectionId, response.mConnectionToken,
        by simp [World.setTask, StartTransport_conn]⟩
  · exact ⟨w.conn.mConnectionId, w.conn.mConnectionToken, rfl⟩

/-- C9: Stop on a Disconnected connection does nothing beyond the wait for the recorded
connect operation. Its result is that of the wait; with no recorded operation, or with one
that has already resolved, the world is left untouched; while it waits for a pending one, the
only things that happen are the completion steps of that pipeline, which can store the
identity pair and nothing else in the connection. In every case the state stays Disconnected,
no StateChanged or Closed event is fired, and neither Abort nor Dispose is called. -/
theorem Stop_when_Disconnected (w : World)
    (h : w.conn.mState = ConnectionState.Disconnected) :
    Stop w = awaitConnect w ∧
    (w.conn.mConnectTask = TaskHandle.empty → Stop w = (w, Outcome.returned ())) ∧
    (∀ k r, w.conn.mConnectTask = TaskHandle.connect k →
      w.tasks[k]? = some (ConnectTask.done r) → (Stop w).1 = w) ∧
    (∀ k, w.conn.mConnectTask = TaskHandle.connect k →
      (Stop w).1 = transportStartCompleted (negotiateCompleted w k) k) ∧
    (∃ connectionId connectionToken, (Stop w).1.conn =
      { w.conn with mConnectionId := connectionId, mConnectionToken := connectionToken }) ∧
    (Stop w).1.conn.mState = ConnectionState.Disconnected ∧
    stateChanges (Stop w).1.trace = stateChanges w.trace ∧
    closedCount (Stop w).1.trace = closedCount w.trace ∧
    releaseCalls (Stop w).1.trace = releaseCalls w.trace := by
  obtain ⟨hs, hc⟩ := awaitConnect_of_Disconnected w h
  have hstop : Stop w = awaitConnect w := by
    by_cases hr : (awaitConnect w).2 = Outcome.returned ()
    · rw [Stop_of_returned w hr, teardown_of_Disconnected _ hs]
      exact Prod.ext rfl hr.symm
    · exact Stop_of_not_returned w hr
  refine ⟨hstop, ?_, ?_, ?_, ?_, ?_, ?_, ?_, ?_⟩
  · intro he
    rw [hstop, awaitConnect_empty w he]
  · intro k r hk hd
    rw [hstop, awaitConnect_fst w k hk, negotiateCompleted_of_done w k r hd,
      transportStartCompleted_of_done w k r hd]
  · intro k hk
    rw [hstop, awaitConnect_fst w k hk]
  · rw [hstop]
    cases hk : w.conn.mConnectTask with
    | empty =>
      rw [awaitConnect_empty w hk]
      exact ⟨w.conn.mConnectionId, w.conn.mConnectionToken, rfl⟩
    | connect k =>
      rw [awaitConnect_fst w k hk]
      have h1 : (negotiateCompleted w k).conn.mState = ConnectionState.Disconnected := by
        rw [negotiateCompleted_mState]; exact h
      rw [(transportStartCompleted_of_Disconnected _ k h1).1]
      exact negotiateCompleted_conn w k
  · rw [hstop]; exact hs
  · rw [hstop]; exact hc
  · rw [hstop]; exact awaitConnect_closedCount w
  · rw [hstop]; exact awaitConnect_releaseCalls w

/-- C10: Stop on a connection whose recorded connect operation fails with `e` (it has already
failed, or it fails while Stop waits for it), a transport being bound as after any Start that
recorded an operation: Stop does not throw; it returns normally and leaves the state
Disconnected. -/
theorem Stop_absorbs_connect_failure (w : World) (k : Nat) (e : Fault) (tr : Transport)
    (hk : w.conn.mConnectTask = TaskHandle.connect k)
    (hf : w.tasks[k]? = some (ConnectTask.done (Outcome.threw e)) ∨
      (wait w k).2 = Outcome.threw e)
    (ht : w.conn.mTransport = some tr) :
    (Stop w).2 = Outcome.returned () ∧
    (∀ ex, (Stop w).2 ≠ Outcome.threw ex) ∧
    (Stop w).1.conn.mState = ConnectionState.Disconnected := by
  have hw : (wait w k).2 = Outcome.threw e := by
    rcases hf with hf | hf
    · rw [wait_of_done w k _ hf]
    · exact hf
  have ha : (awaitConnect w).2 = Outcome.returned () := by
    unfold awaitConnect
    rw [hk]
    simp only []
    split
    · rfl
    · next r hr =>
      have hp : wait w k = ((wait w k).1, Outcome.threw e) := by rw [← hw]
      exact absurd hp (hr _ e)
  have key : (Stop w).2 = Outcome.returned () ∧
      (Stop w).1.conn.mState = ConnectionState.Disconnected := by
    rw [Stop_of_returned w ha]
    by_cases hs : (awaitConnect w).1.conn.mState = ConnectionState.Disconnected
    · rw [teardown_of_Disconnected _ hs]
      exact ⟨rfl, hs⟩
    · have ht1 : (awaitConnect w).1.conn.mTransport = some tr := by
        rw [awaitConnect_mTransport]; exact ht
      obtain ⟨t1, t2, _⟩ := teardown_of_active _ tr hs ht1
      exact ⟨t1, t2⟩
  refine ⟨key.1, ?_, key.2⟩
  intro ex hex
  rw [key.1] at hex
  cases hex

/-! ## Instances on the sample worlds -/

/-- C4 on the sample connection: two further Start calls, one of them with a null transport,
interleaved with the completions of the first pipeline. -/
theorem Start_sequence_negotiates_once_witness :
    sampleWorld.conn.mState = ConnectionState.Disconnected ∧
    negotiateCount
      (run (Start sampleWorld (some okTransport)).1
        [Step.callStart (some (Transport.succeeding 2 "other" "other")),
         Step.completeNegotiate 0, Step.callStart none,
         Step.completeTransportStart 0]).trace = 1 ∧
    (Start
      (run (Start sampleWorld (some okTransport)).1
        [Step.callStart (some (Transport.succeeding 2 "other" "other")),
         Step.completeNegotiate 0])
      none).1.trace =
      (run (Start sampleWorld (some okTransport)).1
        [Step.callStart (some (Transport.succeeding 2 "other" "other")),
         Step.completeNegotiate 0]).trace :=
  have h := Start_sequence_negotiates_once sampleWorld okTransport
    [Step.callStart (some (Transport.succeeding 2 "other" "other")),
     Step.completeNegotiate 0, Step.callStart none,
     Step.completeTransportStart 0] (by decide) (by decide)
  ⟨by decide, h.2.2.1,
    (h.2.2.2.2 [Step.callStart (some (Transport.succeeding 2 "other" "other")),
      Step.completeNegotiate 0] none [Step.completeTransportStart 0] rfl).1⟩

/-- C5 on the sample connection with the succeeding transport. -/
theorem Start_success_witness :
    sampleWorld.conn.mState = ConnectionState.Disconnected ∧
    okTransport.negotiate = Except.ok { mConnectionId := "id", mConnectionToken := "token" } ∧
    okTransport.start = Except.ok () ∧
    (Start sampleWorld (some okTransport)).2 = Outcome.returned (TaskHandle.connect 0) ∧
    (wait (Start sampleWorld (some okTransport)).1 0).2 = Outcome.returned () ∧
    (wait (Start sampleWorld (some okTransport)).1 0).1.tasks[0]? =
      some (ConnectTask.done (Outcome.returned ())) ∧
    (wait (Start sampleWorld (some okTransport)).1 0).1.conn.mState =
      ConnectionState.Connected ∧
    (wait (Start sampleWorld (some okTransport)).1 0).1.conn.mConnectionId = "id" ∧
    (wait (Start sampleWorld (some okTransport)).1 0).1.conn.mConnectionToken = "token" :=
  ⟨by decide, rfl, rfl,
    Start_success sampleWorld okTransport { mConnectionId := "id", mConnectionToken := "token" }
      (by decide) rfl rfl⟩

/-- C6 on the sample connection with a transport whose start fails. -/
theorem Start_transport_start_fails_witness :
    sampleWorld.conn.mState = ConnectionState.Disconnected ∧
    (wait (Start sampleWorld (some (Transport.failingStart 3 "id" "token" "start failed"))).1
      0).2 = Outcome.threw "start failed" ∧
    (wait (Start sampleWorld (some (Transport.failingStart 3 "id" "token" "start failed"))).1
      0).1.conn.mConnectionId = "id" ∧
    (wait (Start sampleWorld (some (Transport.failingStart 3 "id" "token" "start failed"))).1
      0).1.conn.mConnectionToken = "token" ∧
    (wait (Start sampleWorld (some (Transport.failingStart 3 "id" "token" "start failed"))).1
      0).1.conn.mState = ConnectionState.Connecting :=
  have h := Start_transport_start_fails sampleWorld
    (Transport.failingStart 3 "id" "token" "start failed")
    { mConnectionId := "id", mConnectionToken := "token" } "start failed" (by decide) rfl rfl
  ⟨by decide, h.2.1, h.2.2.2.1, h.2.2.2.2.1, h.2.2.2.2.2.1⟩

/-- C7 on the sample connection with a transport whose negotiate fails. -/
theorem Start_negotiate_fails_witness :
    sampleWorld.conn.mState = ConnectionState.Disconnected ∧
    (wait (Start sampleWorld (some (Transport.failingNegotiate 2 "negotiate failed"))).1
      0).2 = Outcome.threw "negotiate failed" ∧
    startCount (wait (Start sampleWorld
      (some (Transport.failingNegotiate 2 "negotiate failed"))).1 0).1.trace = 0 ∧
    (wait (Start sampleWorld (some (Transport.failingNegotiate 2 "negotiate failed"))).1
      0).1.conn.mConnectionId = "" ∧
    (wait (Start sampleWorld (some (Transport.failingNegotiate 2 "negotiate failed"))).1
      0).1.conn.mState = ConnectionState.Connecting :=
  have h := Start_negotiate_fails sampleWorld
    (Transport.failingNegotiate 2 "negotiate failed") "negotiate failed" (by decide) rfl
  ⟨by decide, h.2.1, h.2.2.2.1, h.2.2.2.2.2.1, h.2.2.2.2.2.2.2.1⟩

/-- C8 on the connected sample connection: Stop returns, the connection is Disconnected with
an empty identity, and the registered Closed subscriber was invoked once. -/
theorem Stop_from_active_witness :
    connectedWorld.conn.mState ≠ ConnectionState.Disconnected ∧
    (Stop connectedWorld).2 = Outcome.returned () ∧
    (Stop connectedWorld).1.conn.mState = ConnectionState.Disconnected ∧
    (Stop connectedWorld).1.conn.mConnectionId = "" ∧
    (Stop connectedWorld).1.conn.mConnectionToken = "" ∧
    closedCount (Stop connectedWorld).1.trace = 1 ∧
    closedDelivered (Stop connectedWorld).1.trace = 1 :=
  have h := Stop_from_active connectedWorld (by decide)
  have hr : (Stop connectedWorld).2 = Outcome.returned () :=
    h.2.2 okTransport 0 rfl rfl (by
      intro k hk
      have h0 : connectedWorld.conn.mConnectTask = TaskHandle.connect 0 := rfl
      rw [h0] at hk
      cases hk
      have h1 : connectedWorld.tasks[0]? = some (ConnectTask.done (Outcome.returned ())) := rfl
      rw [h1]
      simp)
  ⟨by decide, hr, (h.2.1 hr).1, (h.2.1 hr).2.1, (h.2.1 hr).2.2.1,
    (h.2.1 hr).2.2.2.2.2.1, (h.2.1 hr).2.2.2.2.2.2⟩

/-- C9 on the sample connection that was disconnected while its negotiate was pending. -/
theorem Stop_when_Disconnected_witness :
    droppedWorld.conn.mState = ConnectionState.Disconnected ∧
    droppedWorld.conn.mConnectTask = TaskHandle.connect 0 ∧
    Stop droppedWorld = awaitConnect droppedWorld ∧
    (Stop droppedWorld).1.conn.mState = ConnectionState.Disconnected ∧
    stateChanges (Stop droppedWorld).1.trace = stateChanges droppedWorld.trace ∧
    closedCount (Stop droppedWorld).1.trace = closedCount droppedWorld.trace ∧
    releaseCalls (Stop droppedWorld).1.trace = 0 :=
  have h := Stop_when_Disconnected droppedWorld (by decide)
  ⟨by decide, by decide, h.1, h.2.2.2.2.2.1, h.2.2.2.2.2.2.1, h.2.2.2.2.2.2.2.1,
    h.2.2.2.2.2.2.2.2⟩

/-- C10 on the sample connection whose negotiate failed. -/
theorem Stop_absorbs_connect_failure_witness :
    negotiateFailedWorld.conn.mConnectTask = TaskHandle.connect 0 ∧
    negotiateFailedWorld.tasks[0]? =
      some (ConnectTask.done (Outcome.threw "negotiate failed")) ∧
    negotiateFailedWorld.conn.mState = ConnectionState.Connecting ∧
    (Stop negotiateFailedWorld).2 = Outcome.returned () ∧
    (Stop negotiateFailedWorld).1.conn.mState = ConnectionState.Disconnected :=
  have h := Stop_absorbs_connect_failure negotiateFailedWorld 0 "negotiate failed"
    (Transport.failingNegotiate 2 "negotiate failed") rfl (Or.inl rfl) rfl
  ⟨by decide, rfl, by decide, h.1, h.2.2⟩

/-! ## EnsureReconnecting -/

/-- C11: `EnsureReconnecting` returns true exactly when the state before the call is Connected
or Reconnecting. From Connected the state becomes Reconnecting and the call emits one
StateChanged(Connected, Reconnecting) followed by one Reconnecting event and nothing else;
from Reconnecting the world is left as it was and the result is true; from Disconnected or
Connecting the world is left as it was and the result is false. -/
theorem EnsureReconnecting_contract (w : World) :
    ((EnsureReconnecting w).2 = true ↔
      (w.conn.mState = ConnectionState.Connected ∨
        w.conn.mState = ConnectionState.Reconnecting)) ∧
    (w.conn.mState = ConnectionState.Connected →
      (EnsureReconnecting w).1.conn =
        { w.conn with mState := ConnectionState.Reconnecting } ∧
      (EnsureReconnecting w).1.trace = w.trace ++
        [Effect.fired
           (Event.StateChanged ConnectionState.Connected ConnectionState.Reconnecting)
           w.conn.StateChanged
           ({ w.conn with mState := ConnectionState.Reconnecting } : Connection).snapshot,
         Effect.fired Event.Reconnecting w.conn.Reconnecting
           ({ w.conn with mState := ConnectionState.Reconnecting } : Connection).snapshot]) ∧
    (w.conn.mState = ConnectionState.Reconnecting → EnsureReconnecting w = (w, true)) ∧
    (w.conn.mState = ConnectionState.Disconnected ∨
      w.conn.mState = ConnectionState.Connecting → EnsureReconnecting w = (w, false)) := by
  unfold EnsureReconnecting
  cases hs : w.conn.mState <;>
    simp [ChangeState, SetState, OnReconnecting, World.fire, World.emit, hs]

/-! ## Construction -/

/-- The test `mUri.back() == '/'` on a non-empty address reads its last character. -/
theorem back_slash_iff (a : String) (h : a ≠ "") :
    a.back = '/' ↔ a.data.getLast? = some '/' := by
  rw [String.back_eq]
  obtain ⟨l⟩ := a
  cases l with
  | nil => exact absurd rfl h
  | cons x xs => simp [List.getLastD, List.getLast?_eq_getLast]

theorem init_mUri_last (a : String) (h : a ≠ "") :
    (Connection.init a).mUri.data.getLast? = some '/' := by
  by_cases hb : a.back = '/'
  · simpa [Connection.init, hb] using (back_slash_iff a h).1 hb
  · simp [Connection.init, hb]

/-- C12: constructing a Connection fails exactly for the empty address. For a non-empty
address the stored uri is the address itself when its last character is the slash, and the
address followed by one slash otherwise; the stored uri always ends with a slash and
constructing from a stored uri stores it unchanged. "http://host/app" is stored as
"http://host/app/", and "http://host/app/" is stored as it is. -/
theorem ctor_contract (a : String) :
    ((∃ ex, Connection.ctor a = Outcome.threw ex) ↔ a = "") ∧
    (a ≠ "" → Connection.ctor a = Outcome.returned (Connection.init a)) ∧
    (a ≠ "" → a.data.getLast? = some '/' → (Connection.init a).mUri = a) ∧
    (a ≠ "" → a.data.getLast? ≠ some '/' → (Connection.init a).mUri = a ++ "/") ∧
    (a ≠ "" → (Connection.init a).mUri.data.getLast? = some '/') ∧
    (a ≠ "" → Connection.ctor (Connection.init a).mUri =
        Outcome.returned (Connection.init (Connection.init a).mUri) ∧
      (Connection.init (Connection.init a).mUri).mUri = (Connection.init a).mUri) ∧
    (Connection.init "http://host/app").mUri = "http://host/app/" ∧
    (Connection.init "http://host/app/").mUri = "http://host/app/" := by
  have hne : ∀ b : String, b ≠ "" → (Connection.init b).mUri ≠ "" := by
    intro b hb hempty
    have h1 := init_mUri_last b hb
    rw [hempty] at h1
    simp at h1
  have hctor : ∀ b : String, b ≠ "" →
      Connection.ctor b = Outcome.returned (Connection.init b) := by
    intro b hb
    have : b.isEmpty = false := by
      cases hq : b.isEmpty with
      | false => rfl
      | true => exact absurd ((String.isEmpty_iff b).1 hq) hb
    simp [Connection.ctor, this]
  have hkeep : ∀ b : String, b ≠ "" → b.data.getLast? = some '/' →
      (Connection.init b).mUri = b := by
    intro b hb hl
    simp [Connection.init, (back_slash_iff b hb).2 hl]
  refine ⟨?_, hctor a, hkeep a, ?_, init_mUri_last a, ?_, by decide, by decide⟩
  · constructor
    · rintro ⟨ex, hex⟩
      by_contra hne2
      rw [hctor a hne2] at hex
      cases hex
    · intro h
      subst h
      exact ⟨_, rfl⟩
  · intro h hl
    have hb : ¬ a.back = '/' := fun hb => hl ((back_slash_iff a h).1 hb)
    simp [Connection.init, hb]
  · intro h
    exact ⟨hctor _ (hne a h), hkeep _ (hne a h) (init_mUri_last a h)⟩

/-! ## Transitions outside the listed ones -/

/-- C16 (counterexample): `ChangeState(Disconnected, Connected)` on a Disconnected connection
and `ChangeState(Connecting, Reconnecting)` on a Connecting one are not among the listed
transitions, yet both return true and change the state. -/
theorem ChangeState_accepts_unlisted_transition :
    specValidTransition ConnectionState.Disconnected ConnectionState.Connected = false ∧
    sampleWorld.conn.mState = ConnectionState.Disconnected ∧
    (ChangeState sampleWorld ConnectionState.Disconnected ConnectionState.Connected).2 = true ∧
    (ChangeState sampleWorld ConnectionState.Disconnected
      ConnectionState.Connected).1.conn.mState = ConnectionState.Connected ∧
    specValidTransition ConnectionState.Connecting ConnectionState.Reconnecting = false ∧
    (Start sampleWorld (some okTransport)).1.conn.mState = ConnectionState.Connecting ∧
    (ChangeState (Start sampleWorld (some okTransport)).1 ConnectionState.Connecting
      ConnectionState.Reconnecting).2 = true ∧
    (ChangeState (Start sampleWorld (some okTransport)).1 ConnectionState.Connecting
      ConnectionState.Reconnecting).1.conn.mState = ConnectionState.Reconnecting := by
  decide

/-- C16 (amended): `ChangeState(expectedOld, new)` is rejected exactly when the current state
differs from `expectedOld`, and then leaves the world as it was; when the current state is
`expectedOld` it returns true and the state becomes `new`, for every pair, listed or not. -/
theorem ChangeState_rejects_iff_mismatch (w : World) (expectedOld new : ConnectionState) :
    ((ChangeState w expectedOld new).2 = false ↔ w.conn.mState ≠ expectedOld) ∧
    (w.conn.mState ≠ expectedOld → (ChangeState w expectedOld new).1 = w) ∧
    (w.conn.mState = expectedOld →
      (ChangeState w expectedOld new).2 = true ∧
      (ChangeState w expectedOld new).1.conn.mState = new) ∧
    (specValidTransition expectedOld new = false → w.conn.mState = expectedOld →
      (ChangeState w expectedOld new).2 = true ∧
      (ChangeState w expectedOld new).1.conn.mState = new) := by
  unfold ChangeState
  by_cases h : w.conn.mState = expectedOld
  · simp [h, SetState, World.fire, World.emit]
  · simp [h]

/-! ## The cancellation token handed to the transport start -/

/-- C17 (evaluation at the failing input): the first Start creates cancellation source 0 and
begins the attempt; a second Start made before negotiate completes loses the transition but
has already installed cancellation source 1; when negotiate completes, the transport start of
the first attempt is handed token 1. Without the second Start it is handed token 0. -/
theorem losing_Start_replaces_token :
    (Start sampleWorld (some okTransport)).1.conn.mDisconnectCts = some 0 ∧
    (run sampleWorld
      [Step.callStart (some okTransport), Step.callStart (some okTransport),
       Step.completeNegotiate 0]).trace =
      [Effect.fired
         (Event.StateChanged ConnectionState.Disconnected ConnectionState.Connecting) true
         { mState := ConnectionState.Connecting, mConnectionId := "", mConnectionToken := "",
           mGroupsToken := "", mMessageId := "" },
       Effect.negotiate 1,
       Effect.start 1 1] ∧
    (run sampleWorld
      [Step.callStart (some okTransport), Step.completeNegotiate 0]).trace =
      [Effect.fired
         (Event.StateChanged ConnectionState.Disconnected ConnectionState.Connecting) true
         { mState := ConnectionState.Connecting, mConnectionId := "", mConnectionToken := "",
           mGroupsToken := "", mMessageId := "" },
       Effect.negotiate 1,
       Effect.start 1 0] := by
  decide

/-! ## What subscribers see during Disconnect -/

/-- C18 (counterexample): Disconnect on the connected sample connection invokes the
StateChanged subscriber with payload (Connected, Disconnected) at a point where the state is
already Disconnected while connectionId and connectionToken still hold "id" and "token". -/
theorem Disconnect_StateChanged_sees_identity :
    connectedWorld.conn.mState = ConnectionState.Connected ∧
    Effect.fired (Event.StateChanged ConnectionState.Connected ConnectionState.Disconnected)
      true
      { mState := ConnectionState.Disconnected, mConnectionId := "id",
        mConnectionToken := "token", mGroupsToken := "", mMessageId := "" }
      ∈ (Disconnect connectedWorld).trace ∧
    Effect.fired (Event.StateChanged ConnectionState.Connected ConnectionState.Disconnected)
      true
      { mState := ConnectionState.Disconnected, mConnectionId := "id",
        mConnectionToken := "token", mGroupsToken := "", mMessageId := "" }
      ∈ (Stop connectedWorld).1.trace := by
  decide

/-- C18 (amended): during Disconnect on a connection that is not Disconnected exactly two
dispatches happen. First StateChanged(old, Disconnected), whose subscriber sees the state
already Disconnected and the four identity fields as they were before the call; then Closed,
whose subscriber sees the state Disconnected and the four identity fields empty. The teardown
block of Stop makes the same two dispatches between its Abort and Dispose calls. -/
theorem Disconnect_dispatches (w : World)
    (h : w.conn.mState ≠ ConnectionState.Disconnected) :
    (Disconnect w).trace = w.trace ++
      [Effect.fired (Event.StateChanged w.conn.mState ConnectionState.Disconnected)
         w.conn.StateChanged
         { mState := ConnectionState.Disconnected
           mConnectionId := w.conn.mConnectionId
           mConnectionToken := w.conn.mConnectionToken
           mGroupsToken := w.conn.mGroupsToken
           mMessageId := w.conn.mMessageId },
       Effect.fired Event.Closed w.conn.Closed
         { mState := ConnectionState.Disconnected
           mConnectionId := ""
           mConnectionToken := ""
           mGroupsToken := ""
           mMessageId := "" }] ∧
    (∀ tr, w.conn.mTransport = some tr →
      (teardown w).1.trace = w.trace ++
        [Effect.abort tr.id,
         Effect.fired (Event.StateChanged w.conn.mState ConnectionState.Disconnected)
           w.conn.StateChanged
           { mState := ConnectionState.Disconnected
             mConnectionId := w.conn.mConnectionId
             mConnectionToken := w.conn.mConnectionToken
             mGroupsToken := w.conn.mGroupsToken
             mMessageId := w.conn.mMessageId },
         Effect.fired Event.Closed w.conn.Closed
           { mState := ConnectionState.Disconnected
             mConnectionId := ""
             mConnectionToken := ""
             mGroupsToken := ""
             mMessageId := "" },
         Effect.dispose tr.id]) := by
  refine ⟨?_, ?_⟩
  · simp [Disconnect, h, SetState, World.fire, World.emit, Connection.snapshot]
  · intro tr ht
    exact (teardown_of_active w tr h ht).2.2.2.2.2.2.2

/-- C18 (amended) on the connected sample connection. -/
theorem Disconnect_dispatches_witness :
    connectedWorld.conn.mState ≠ ConnectionState.Disconnected ∧
    (Disconnect connectedWorld).trace = connectedWorld.trace ++
      [Effect.fired (Event.StateChanged ConnectionState.Connected ConnectionState.Disconnected)
         true
         { mState := ConnectionState.Disconnected, mConnectionId := "id",
           mConnectionToken := "token", mGroupsToken := "", mMessageId := "" },
       Effect.fired Event.Closed true
         { mState := ConnectionState.Disconnected, mConnectionId := "",
           mConnectionToken := "", mGroupsToken := "", mMessageId := "" }] :=
  ⟨by decide, (Disconnect_dispatches connectedWorld (by decide)).1⟩

/-! ## Message delivery -/

theorem chainEnd_append (s : ConnectionState) (xs ys : List (ConnectionState × ConnectionState)) :
    chainEnd s (xs ++ ys) = (chainEnd s xs).bind fun m => chainEnd m ys := by
  induction xs generalizing s with
  | nil => simp [chainEnd]
  | cons p xs ih =>
    obtain ⟨o, n⟩ := p
    by_cases h : o = s
    · simp [chainEnd, h, ih]
    · simp [chainEnd, h]

theorem chainEnd_spec (l : List (ConnectionState × ConnectionState)) :
    ∀ s e : ConnectionState, chainEnd s l = some e →
      (∀ p, l.head? = some p → p.1 = s) ∧
      List.Chain' (fun a b => a.2 = b.1) l ∧
      (∀ p, l.getLast? = some p → p.2 = e) ∧
      (l = [] → e = s) := by
  induction l with
  | nil =>
    intro s e h
    simp [chainEnd] at h
    simp [h]
  | cons p rest ih =>
    intro s e h
    obtain ⟨o, n⟩ := p
    by_cases hos : o = s
    · simp [chainEnd, hos] at h
      obtain ⟨h1, h2, h3, h4⟩ := ih n e h
      refine ⟨by simp [hos], ?_, ?_, by simp⟩
      · cases rest with
        | nil => simp
        | cons q rest2 =>
          rw [List.chain'_cons]
          exact ⟨(h1 q rfl).symm, h2⟩
      · intro q hq
        cases rest with
        | nil =>
          simp at hq
          subst hq
          exact (h4 rfl).symm
        | cons q2 rest2 =>
          apply h3
          simpa [List.getLast?_cons_cons] using hq
    · simp [chainEnd, hos] at h

theorem Follows.refl (w : World) : Follows w w :=
  ⟨[], by simp, rfl⟩

theorem Follows.trans {w1 w2 w3 : World} (h12 : Follows w1 w2) (h23 : Follows w2 w3) :
    Follows w1 w3 := by
  obtain ⟨p, hp1, hp2⟩ := h12
  obtain ⟨q, hq1, hq2⟩ := h23
  refine ⟨p ++ q, ?_, ?_⟩
  · rw [hq1, hp1, List.append_assoc]
  · rw [chainEnd_append, hp2]
    exact hq2

theorem Follows_of_same (w1 w2 : World) (ht : stateChanges w2.trace = stateChanges w1.trace)
    (hs : w2.conn.mState = w1.conn.mState) : Follows w1 w2 :=
  ⟨[], by simp [ht], by simp [chainEnd, hs]⟩

theorem Follows_SetState (w : World) (n : ConnectionState) : Follows w (SetState w n) :=
  ⟨[(w.conn.mState, n)],
    by simp [SetState, World.fire, World.emit, stateChanges_append, stateChanges],
    by simp [chainEnd, SetState, World.fire, World.emit]⟩

theorem Follows_ChangeState (w : World) (o n : ConnectionState) :
    Follows w (ChangeState w o n).1 := by
  unfold ChangeState
  split
  · exact Follows_SetState w n
  · exact Follows.refl w

theorem Follows_Disconnect (w : World) : Follows w (Disconnect w) := by
  unfold Disconnect
  split
  · apply Follows.trans (Follows_SetState w ConnectionState.Disconnected)
    apply Follows_of_same
    · simp [World.fire, World.emit, stateChanges_append, stateChanges]
    · simp [World.fire, World.emit]
  · exact Follows.refl w

theorem Follows_negotiateCompleted (w : World) (k : Nat) :
    Follows w (negotiateCompleted w k) :=
  Follows_of_same _ _ (negotiateCompleted_stateChanges w k) (negotiateCompleted_mState w k)

theorem Follows_transportStartCompleted (w : World) (k : Nat) :
    Follows w (transportStartCompleted w k) := by
  unfold transportStartCompleted
  split
  · split
    · exact Follows_of_same _ _ rfl rfl
    · exact Follows.trans (Follows_ChangeState w _ _) (Follows_of_same _ _ rfl rfl)
  · exact Follows.refl w

theorem Follows_awaitConnect (w : World) : Follows w (awaitConnect w).1 := by
  cases hk : w.conn.mConnectTask with
  | empty => rw [awaitConnect_empty w hk]; exact Follows.refl w
  | connect k =>
    rw [awaitConnect_fst w k hk]
    exact Follows.trans (Follows_negotiateCompleted w k) (Follows_transportStartCompleted _ k)

theorem Follows_teardown (w : World) : Follows w (teardown w).1 := by
  unfold teardown
  split
  · split
    · exact Follows.refl w
    · next tr _ =>
      have h1 : Follows w (w.emit (Effect.abort tr.id)) :=
        Follows_of_same _ _ (by simp [World.emit, stateChanges_append, stateChanges]) rfl
      have h2 := Follows.trans h1 (Follows_Disconnect _)
      simp only []
      split
      · exact Follows.trans h2
          (Follows_of_same _ _ (by simp [World.emit, stateChanges_append, stateChanges]) rfl)
      · exact h2
  · exact Follows.refl w

theorem Follows_Stop (w : World) : Follows w (Stop w).1 := by
  by_cases hr : (awaitConnect w).2 = Outcome.returned ()
  · rw [Stop_of_returned w hr]
    exact Follows.trans (Follows_awaitConnect w) (Follows_teardown _)
  · rw [Stop_of_not_returned w hr]
    exact Follows_awaitConnect w

theorem Follows_Start (w : World) (transport : Option Transport) :
    Follows w (Start w transport).1 := by
  by_cases h : w.conn.mState = ConnectionState.Disconnected
  · cases transport with
    | none =>
      refine ⟨[(ConnectionState.Disconnected, ConnectionState.Connecting)], ?_, ?_⟩
      · simp [Start, ChangeState, h, SetState, Negotiate, World.fire, World.emit,
          stateChanges_append, stateChanges]
      · simp [Start, ChangeState, h, SetState, Negotiate, World.fire, World.emit, chainEnd]
    | some t =>
      rw [Start_of_Disconnected w t h]
      exact ⟨[(ConnectionState.Disconnected, ConnectionState.Connecting)],
        by simp [stateChanges_append, stateChanges], by simp [chainEnd, h]⟩
  · rw [Start_of_ne_Disconnected w transport h]
    exact Follows_of_same _ _ rfl rfl

theorem Follows_Send (w : World) (data : String) : Follows w (Send w data).1 := by
  unfold Send
  split
  · exact Follows.refl w
  · split
    · exact Follows.refl w
    · split
      · exact Follows.refl w
      · exact Follows_of_same _ _ (by simp [World.emit, stateChanges_append, stateChanges]) rfl

theorem Follows_EnsureReconnecting (w : World) : Follows w (EnsureReconnecting w).1 := by
  unfold EnsureReconnecting
  simp only []
  split
  · exact Follows.trans (Follows_ChangeState w _ _)
      (Follows_of_same _ _
        (by simp [OnReconnecting, World.fire, World.emit, stateChanges_append, stateChanges])
        rfl)
  · exact Follows_ChangeState w _ _

theorem stateChanges_replicate_received (n : Nat) (message : String) (d : Bool)
    (s : Snapshot) :
    stateChanges (List.replicate n (Effect.fired (Event.Received message) d s)) = [] := by
  induction n with
  | zero => rfl
  | succ n ih => simp [List.replicate_succ, stateChanges, ih]

theorem Follows_OnReceived (w : World) (message : String) :
    Follows w (OnReceived w message).1 := by
  unfold OnReceived
  split
  · exact Follows_of_same _ _
      (by simp [World.fire, World.emit, stateChanges_append, stateChanges]) rfl
  · next subscribers _ =>
    have hc : Follows w (callReceived w subscribers message).1 := by
      unfold callReceived
      simp only []
      split <;>
        exact Follows_of_same _ _
          (by simp [stateChanges_append, stateChanges_replicate_received]) rfl
    split
    · next w1 ex heq =>
      rw [heq] at hc
      exact Follows.trans hc (Follows_of_same _ _
        (by simp [OnError, World.fire, World.emit, stateChanges_append, stateChanges]) rfl)
    · exact hc

/-- Every step emits StateChanged payloads that lead from the state before it to the state
after it. -/
theorem Follows_step (w : World) (s : Step) : Follows w (s.apply w) := by
  cases s with
  | callStart transport => exact Follows_Start w transport
  | callStop => exact Follows_Stop w
  | callSend data => exact Follows_Send w data
  | callChangeState o n => exact Follows_ChangeState w o n
  | callEnsureReconnecting => exact Follows_EnsureReconnecting w
  | callDisconnect => exact Follows_Disconnect w
  | callSetMessageId _ => exact Follows_of_same _ _ rfl rfl
  | callSetConnectionToken _ => exact Follows_of_same _ _ rfl rfl
  | callSetConnectionId _ => exact Follows_of_same _ _ rfl rfl
  | callSetGroupsToken _ => exact Follows_of_same _ _ rfl rfl
  | callSetProtocol _ => exact Follows_of_same _ _ rfl rfl
  | callOnReceived message => exact Follows_OnReceived w message
  | completeNegotiate k => exact Follows_negotiateCompleted w k
  | completeTransportStart k => exact Follows_transportStartCompleted w k

theorem Follows_run (steps : List Step) : ∀ w : World, Follows w (run w steps) := by
  induction steps with
  | nil => intro w; exact Follows.refl w
  | cons s rest ih =>
    intro w
    exact Follows.trans (Follows_step w s) (ih (s.apply w))

/-- C20: on a connection that starts Disconnected with an empty trace, after any sequence of
steps (calls of the public methods and completions of transport tasks) the StateChanged
payloads emitted so far form a chain that tracks the state: the first payload's old state is
Disconnected, each later payload's old state is the previous payload's new state, and the last
payload's new state is the current state (with no payload the state is still Disconnected).
Every single step, Disconnect included, emits payloads leading from the state before it to the
state after it, so no step changes the state without a StateChanged for that change. -/
theorem StateChanged_chain (w0 : World) (steps : List Step)
    (h0 : w0.trace = []) (hs : w0.conn.mState = ConnectionState.Disconnected) :
    chainEnd ConnectionState.Disconnected (stateChanges (run w0 steps).trace) =
      some (run w0 steps).conn.mState ∧
    (∀ p, (stateChanges (run w0 steps).trace).head? = some p →
      p.1 = ConnectionState.Disconnected) ∧
    List.Chain' (fun a b => a.2 = b.1) (stateChanges (run w0 steps).trace) ∧
    (∀ p, (stateChanges (run w0 steps).trace).getLast? = some p →
      p.2 = (run w0 steps).conn.mState) ∧
    (stateChanges (run w0 steps).trace = [] →
      (run w0 steps).conn.mState = ConnectionState.Disconnected) ∧
    (∀ (w : World) (s : Step), Follows w (s.apply w)) ∧
    (∀ (w : World) (s : Step), (s.apply w).conn.mState ≠ w.conn.mState →
      (stateChanges (s.apply w).trace).length > (stateChanges w.trace).length) ∧
    (∀ w : World, w.conn.mState ≠ ConnectionState.Disconnected →
      stateChanges (Disconnect w).trace =
        stateChanges w.trace ++ [(w.conn.mState, ConnectionState.Disconnected)]) := by
  have hchain : chainEnd ConnectionState.Disconnected (stateChanges (run w0 steps).trace) =
      some (run w0 steps).conn.mState := by
    obtain ⟨path, hp1, hp2⟩ := Follows_run steps w0
    rw [hp1, h0]
    simpa [stateChanges, hs] using hp2
  obtain ⟨c1, c2, c3, c4⟩ := chainEnd_spec _ _ _ hchain
  refine ⟨hchain, c1, c2, c3, c4, Follows_step, ?_, ?_⟩
  · intro w s hne
    obtain ⟨path, hp1, hp2⟩ := Follows_step w s
    cases path with
    | nil =>
      simp [chainEnd] at hp2
      exact absurd hp2.symm hne
    | cons p rest =>
      rw [hp1]
      simp
  · intro w h
    simp [Disconnect, h, SetState, World.fire, World.emit, stateChanges_append, stateChanges]

/-- C20 on the sample connection: Start, both completions, EnsureReconnecting, Disconnect. -/
theorem StateChanged_chain_witness :
    sampleWorld.trace = [] ∧
    sampleWorld.conn.mState = ConnectionState.Disconnected ∧
    stateChanges (run sampleWorld
      [Step.callStart (some okTransport), Step.completeNegotiate 0,
       Step.completeTransportStart 0, Step.callEnsureReconnecting, Step.callDisconnect]).trace =
      [(ConnectionState.Disconnected, ConnectionState.Connecting),
       (ConnectionState.Connecting, ConnectionState.Connected),
       (ConnectionState.Connected, ConnectionState.Reconnecting),
       (ConnectionState.Reconnecting, ConnectionState.Disconnected)] ∧
    chainEnd ConnectionState.Disconnected
      (stateChanges (run sampleWorld
        [Step.callStart (some okTransport), Step.completeNegotiate 0,
         Step.completeTransportStart 0, Step.callEnsureReconnecting,
         Step.callDisconnect]).trace) =
      some (run sampleWorld
        [Step.callStart (some okTransport), Step.completeNegotiate 0,
         Step.completeTransportStart 0, Step.callEnsureReconnecting,
         Step.callDisconnect]).conn.mState :=
  ⟨rfl, by decide, by decide,
    (StateChanged_chain sampleWorld
      [Step.callStart (some okTransport), Step.completeNegotiate 0,
       Step.completeTransportStart 0, Step.callEnsureReconnecting, Step.callDisconnect]
      rfl (by decide)).1⟩

/-! ## A transport is bound while the connection is not Disconnected -/

theorem OnReceived_conn (w : World) (message : String) :
    (OnReceived w message).1.conn = w.conn := by
  unfold OnReceived
  split
  · rfl
  · next subscribers _ =>
    have hc : (callReceived w subscribers message).1.conn = w.conn := by
      unfold callReceived
      simp only []
      split <;> rfl
    split
    · next w1 ex heq =>
      rw [heq] at hc
      simpa [OnError, World.fire, World.emit] using hc
    · exact hc

theorem TransportBound_awaitConnect (w : World) (h : TransportBound w) :
    TransportBound (awaitConnect w).1 := by
  intro hne
  rw [awaitConnect_mTransport]
  apply h
  intro hd
  exact hne (awaitConnect_of_Disconnected w hd).1

theorem TransportBound_teardown (w : World) (h : TransportBound w) :
    TransportBound (teardown w).1 := by
  intro hne
  by_cases hs : w.conn.mState = ConnectionState.Disconnected
  · rw [teardown_of_Disconnected w hs] at hne
    exact absurd hs hne
  · cases ht : w.conn.mTransport with
    | none =>
      have hb := h hs
      rw [ht] at hb
      cases hb
    | some tr => exact absurd (teardown_of_active w tr hs ht).2.1 hne

theorem TransportBound_step (w : World) (s : Step) (hs : s.keepsTransportBound = true)
    (h : TransportBound w) : TransportBound (s.apply w) := by
  cases s with
  | callStart transport =>
    cases transport with
    | none => simp [Step.keepsTransportBound] at hs
    | some t =>
      by_cases hd : w.conn.mState = ConnectionState.Disconnected
      · intro _
        simp [Step.apply, Start_of_Disconnected w t hd]
      · intro _
        simpa [Step.apply, Start_of_ne_Disconnected w _ hd] using h hd
  | callStop =>
    show TransportBound (Stop w).1
    by_cases hr : (awaitConnect w).2 = Outcome.returned ()
    · rw [Stop_of_returned w hr]
      exact TransportBound_teardown _ (TransportBound_awaitConnect w h)
    · rw [Stop_of_not_returned w hr]
      exact TransportBound_awaitConnect w h
  | callSend data =>
    show TransportBound (Send w data).1
    unfold Send
    split
    · exact h
    · split
      · exact h
      · split
        · exact h
        · exact h
  | callChangeState o n =>
    show TransportBound (ChangeState w o n).1
    intro hne
    rw [ChangeState_mTransport]
    apply h
    intro hd
    apply hne
    unfold ChangeState
    by_cases ho : w.conn.mState = o
    · rw [if_pos ho]
      simp [Step.keepsTransportBound] at hs
      rcases hs with hs | hs
      · exact absurd (ho ▸ hd) hs
      · simpa [SetState, World.fire, World.emit] using hs
    · rw [if_neg ho]
      exact hd
  | callEnsureReconnecting =>
    show TransportBound (EnsureReconnecting w).1
    intro hne
    have hc : (EnsureReconnecting w).1.conn.mTransport = w.conn.mTransport := by
      unfold EnsureReconnecting
      simp only []
      split
      · simp [OnReconnecting, World.fire, World.emit, ChangeState_mTransport]
      · exact ChangeState_mTransport w _ _
    rw [hc]
    apply h
    intro hd
    apply hne
    simp [EnsureReconnecting, ChangeState, hd]
  | callDisconnect =>
    show TransportBound (Disconnect w)
    intro hne
    by_cases hd : w.conn.mState = ConnectionState.Disconnected
    · simp [Disconnect, hd] at hne
    · simp [Disconnect, hd, SetState, World.fire, World.emit] at hne
  | callSetMessageId _ => exact h
  | callSetConnectionToken _ => exact h
  | callSetConnectionId _ => exact h
  | callSetGroupsToken _ => exact h
  | callSetProtocol _ => exact h
  | callOnReceived message =>
    show TransportBound (OnReceived w message).1
    unfold TransportBound
    rw [OnReceived_conn]
    exact h
  | completeNegotiate k =>
    show TransportBound (negotiateCompleted w k)
    unfold TransportBound
    rw [negotiateCompleted_mState, negotiateCompleted_mTransport]
    exact h
  | completeTransportStart k =>
    show TransportBound (transportStartCompleted w k)
    intro hne
    rw [transportStartCompleted_mTransport]
    apply h
    intro hd
    apply hne
    rw [(transportStartCompleted_of_Disconnected w k hd).1]
    exact hd

theorem TransportBound_run (steps : List Step) :
    ∀ w : World, (∀ s ∈ steps, s.keepsTransportBound = true) → TransportBound w →
      TransportBound (run w steps) := by
  induction steps with
  | nil => intro w _ h; exact h
  | cons s rest ih =>
    intro w hs h
    exact ih (s.apply w) (fun x hx => hs x (List.mem_cons_of_mem _ hx))
      (TransportBound_step w s (hs s (List.mem_cons_self _ _)) h)

/-- C19 (counterexample): `ChangeState(Disconnected, Connected)` on a fresh connection leaves
it Connected with no transport bound; Send then calls `mTransport->Send` and Stop calls
`mTransport->Abort` through the null pointer. -/
theorem ChangeState_leaves_transport_unbound :
    (run sampleWorld
      [Step.callChangeState ConnectionState.Disconnected
        ConnectionState.Connected]).conn.mState = ConnectionState.Connected ∧
    (run sampleWorld
      [Step.callChangeState ConnectionState.Disconnected
        ConnectionState.Connected]).conn.mTransport.isSome = false ∧
    (Send (run sampleWorld
      [Step.callChangeState ConnectionState.Disconnected ConnectionState.Connected])
      "hello").2 = Outcome.nullDeref ∧
    (Stop (run sampleWorld
      [Step.callChangeState ConnectionState.Disconnected ConnectionState.Connected])).2 =
      Outcome.nullDeref := by
  refine ⟨by decide, by decide, rfl, by decide⟩

/-- C19 (amended): start from a Disconnected connection and take any sequence of steps in
which every Start is given a transport and ChangeState is not used to leave Disconnected.
Then a connection that is not Disconnected has a transport bound, so the transport send of
Send and the Abort in the teardown block of Stop (run after its wait) do not go through a null
pointer. -/
theorem transport_bound_while_active (w0 : World) (steps : List Step)
    (h0 : w0.conn.mState = ConnectionState.Disconnected)
    (hsteps : ∀ s ∈ steps, s.keepsTransportBound = true) :
    ((run w0 steps).conn.mState ≠ ConnectionState.Disconnected →
      ∃ tr, (run w0 steps).conn.mTransport = some tr) ∧
    (∀ data, (Send (run w0 steps) data).2 ≠ Outcome.nullDeref) ∧
    (teardown (awaitConnect (run w0 steps)).1).2 = Outcome.returned () := by
  have hb : TransportBound (run w0 steps) :=
    TransportBound_run steps w0 hsteps (fun hne => absurd h0 hne)
  refine ⟨?_, ?_, ?_⟩
  · intro hne
    exact Option.isSome_iff_exists.1 (hb hne)
  · intro data
    unfold Send
    split
    · simp
    · split
      · simp
      · next hd _ =>
        obtain ⟨tr, htr⟩ := Option.isSome_iff_exists.1 (hb hd)
        simp [htr]
  · have hb2 := TransportBound_awaitConnect _ hb
    by_cases hd : (awaitConnect (run w0 steps)).1.conn.mState = ConnectionState.Disconnected
    · rw [teardown_of_Disconnected _ hd]
    · obtain ⟨tr, htr⟩ := Option.isSome_iff_exists.1 (hb2 hd)
      exact (teardown_of_active _ tr hd htr).1

/-- C19 (amended) on the sample connection: Start, a listed ChangeState, a Send. -/
theorem transport_bound_while_active_witness :
    sampleWorld.conn.mState = ConnectionState.Disconnected ∧
    (run sampleWorld
      [Step.callStart (some okTransport), Step.completeNegotiate 0,
       Step.completeTransportStart 0,
       Step.callChangeState ConnectionState.Connected ConnectionState.Reconnecting,
       Step.callSend "hello"]).conn.mState = ConnectionState.Reconnecting ∧
    (∃ tr, (run sampleWorld
      [Step.callStart (some okTransport), Step.completeNegotiate 0,
       Step.completeTransportStart 0,
       Step.callChangeState ConnectionState.Connected ConnectionState.Reconnecting,
       Step.callSend "hello"]).conn.mTransport = some tr) :=
  ⟨by decide, by decide,
    (transport_bound_while_active sampleWorld
      [Step.callStart (some okTransport), Step.completeNegotiate 0,
       Step.completeTransportStart 0,
       Step.callChangeState ConnectionState.Connected ConnectionState.Reconnecting,
       Step.callSend "hello"] (by decide) (by decide)).1 (by decide)⟩

/-! ## Identity fields and the Disconnected state -/

theorem IdentityCleared_of_conn (w w2 : World) (hc : w2.conn = w.conn)
    (h : IdentityCleared w) : IdentityCleared w2 := by
  unfold IdentityCleared
  rw [hc]
  exact h

theorem IdentityCleared_of_active (w : World)
    (h : w.conn.mState ≠ ConnectionState.Disconnected) : IdentityCleared w :=
  fun hd => absurd hd h

theorem negotiateCompleted_of_not_awaiting (w : World) (k : Nat)
    (h : awaitsNegotiate w k = false) : negotiateCompleted w k = w := by
  unfold awaitsNegotiate at h
  unfold negotiateCompleted
  split
  · next tr heq => simp [heq] at h
  · rfl

theorem Stop_fst_of_Disconnected (w : World)
    (h : w.conn.mState = ConnectionState.Disconnected) :
    (Stop w).1 = (awaitConnect w).1 := by
  by_cases hr : (awaitConnect w).2 = Outcome.returned ()
  · rw [Stop_of_returned w hr, teardown_of_Disconnected _ (awaitConnect_of_Disconnected w h).1]
  · rw [Stop_of_not_returned w hr]

theorem IdentityCleared_Stop_active (w : World)
    (h : w.conn.mState ≠ ConnectionState.Disconnected) : IdentityCleared (Stop w).1 := by
  have hne := awaitConnect_ne_Disconnected w h
  by_cases hr : (awaitConnect w).2 = Outcome.returned ()
  · rw [Stop_of_returned w hr]
    cases ht : (awaitConnect w).1.conn.mTransport with
    | none =>
      apply IdentityCleared_of_active
      simp [teardown, hne, ht]
    | some tr =>
      obtain ⟨_, _, t3, t4, t5, t6, _⟩ := teardown_of_active _ tr hne ht
      exact fun _ => ⟨t3, t4, t5, t6⟩
  · rw [Stop_of_not_returned w hr]
    exact IdentityCleared_of_active _ hne

theorem IdentityCleared_step (w : World) (s : Step)
    (hs : s.keepsIdentityDiscipline w = true) (h : IdentityCleared w) :
    IdentityCleared (s.apply w) := by
  cases s with
  | callStart transport =>
    show IdentityCleared (Start w transport).1
    by_cases hd : w.conn.mState = ConnectionState.Disconnected
    · apply IdentityCleared_of_active
      cases transport <;>
        simp [Start, ChangeState, hd, SetState, Negotiate, World.fire, World.emit]
    · rw [Start_of_ne_Disconnected w transport hd]
      exact IdentityCleared_of_active _ hd
  | callStop =>
    show IdentityCleared (Stop w).1
    by_cases hd : w.conn.mState = ConnectionState.Disconnected
    · rw [Stop_fst_of_Disconnected w hd]
      cases hk : w.conn.mConnectTask with
      | empty => rw [awaitConnect_empty w hk]; exact h
      | connect k =>
        have hn : awaitsNegotiate w k = false := by
          simpa [Step.keepsIdentityDiscipline, hd, hk] using hs
        rw [awaitConnect_fst w k hk, negotiateCompleted_of_not_awaiting w k hn]
        exact IdentityCleared_of_conn w _ (transportStartCompleted_of_Disconnected w k hd).1 h
    · exact IdentityCleared_Stop_active w hd
  | callSend data =>
    show IdentityCleared (Send w data).1
    unfold Send
    split
    · exact h
    · split
      · exact h
      · split
        · exact h
        · exact h
  | callChangeState o n =>
    show IdentityCleared (ChangeState w o n).1
    have hn : n ≠ ConnectionState.Disconnected := by
      simpa [Step.keepsIdentityDiscipline] using hs
    unfold ChangeState
    split
    · apply IdentityCleared_of_active
      simpa [SetState, World.fire, World.emit] using hn
    · exact h
  | callEnsureReconnecting =>
    show IdentityCleared (EnsureReconnecting w).1
    by_cases hc : w.conn.mState = ConnectionState.Connected
    · apply IdentityCleared_of_active
      simp [EnsureReconnecting, ChangeState, hc, SetState, OnReconnecting, World.fire,
        World.emit]
    · have : (EnsureReconnecting w).1 = w := by
        simp [EnsureReconnecting, ChangeState, hc]
      rw [this]
      exact h
  | callDisconnect =>
    show IdentityCleared (Disconnect w)
    by_cases hd : w.conn.mState = ConnectionState.Disconnected
    · simpa [Disconnect, hd] using h
    · intro _
      simp [Disconnect, hd, SetState, World.fire, World.emit]
  | callSetMessageId _ =>
    have hd : w.conn.mState ≠ ConnectionState.Disconnected := by
      simpa [Step.keepsIdentityDiscipline] using hs
    exact IdentityCleared_of_active _ hd
  | callSetConnectionToken _ =>
    have hd : w.conn.mState ≠ ConnectionState.Disconnected := by
      simpa [Step.keepsIdentityDiscipline] using hs
    exact IdentityCleared_of_active _ hd
  | callSetConnectionId _ =>
    have hd : w.conn.mState ≠ ConnectionState.Disconnected := by
      simpa [Step.keepsIdentityDiscipline] using hs
    exact IdentityCleared_of_active _ hd
  | callSetGroupsToken _ =>
    have hd : w.conn.mState ≠ ConnectionState.Disconnected := by
      simpa [Step.keepsIdentityDiscipline] using hs
    exact IdentityCleared_of_active _ hd
  | callSetProtocol _ => exact h
  | callOnReceived message =>
    exact IdentityCleared_of_conn w _ (OnReceived_conn w message) h
  | completeNegotiate k =>
    show IdentityCleared (negotiateCompleted w k)
    by_cases hd : w.conn.mState = ConnectionState.Disconnected
    · have hn : awaitsNegotiate w k = false := by
        simpa [Step.keepsIdentityDiscipline, hd] using hs
      rw [negotiateCompleted_of_not_awaiting w k hn]
      exact h
    · apply IdentityCleared_of_active
      rw [negotiateCompleted_mState]
      exact hd
  | completeTransportStart k =>
    show IdentityCleared (transportStartCompleted w k)
    by_cases hd : w.conn.mState = ConnectionState.Disconnected
    · exact IdentityCleared_of_conn w _ (transportStartCompleted_of_Disconnected w k hd).1 h
    · exact IdentityCleared_of_active _ (transportStartCompleted_ne_Disconnected w k hd)

theorem IdentityCleared_run (steps : List Step) :
    ∀ w : World, runsWithin Step.keepsIdentityDiscipline w steps = true → IdentityCleared w →
      IdentityCleared (run w steps) := by
  induction steps with
  | nil => intro w _ h; exact h
  | cons s rest ih =>
    intro w hs h
    simp [runsWithin] at hs
    exact ih (s.apply w) hs.2 (IdentityCleared_step w s hs.1 h)

/-- C14 (counterexample): three runs from a fresh connection end Disconnected with a non-empty
connectionId. A setter called while Disconnected; `ChangeState(Connected, Disconnected)` after
a successful Start; a Disconnect issued while negotiate is pending, after which the
continuation stores the negotiated identity. -/
theorem identity_nonempty_while_Disconnected :
    ((run sampleWorld [Step.callSetConnectionId "x"]).conn.mState =
        ConnectionState.Disconnected ∧
      (run sampleWorld [Step.callSetConnectionId "x"]).conn.mConnectionId = "x") ∧
    ((run sampleWorld
        [Step.callStart (some okTransport), Step.completeNegotiate 0,
         Step.completeTransportStart 0,
         Step.callChangeState ConnectionState.Connected
           ConnectionState.Disconnected]).conn.mState = ConnectionState.Disconnected ∧
      (run sampleWorld
        [Step.callStart (some okTransport), Step.completeNegotiate 0,
         Step.completeTransportStart 0,
         Step.callChangeState ConnectionState.Connected
           ConnectionState.Disconnected]).conn.mConnectionId = "id") ∧
    ((run sampleWorld
        [Step.callStart (some okTransport), Step.callDisconnect,
         Step.completeNegotiate 0]).conn.mState = ConnectionState.Disconnected ∧
      (run sampleWorld
        [Step.callStart (some okTransport), Step.callDisconnect,
         Step.completeNegotiate 0]).conn.mConnectionId = "id") := by
  decide

/-- C14 (amended): start from a connection on which the four identity fields are empty
whenever it is Disconnected (a fresh connection is one), and take any sequence of steps in
which the identity setters are called only while the state is not Disconnected, ChangeState is
not used to enter Disconnected, and the continuation after negotiate does not run on a
Disconnected connection. Then, at the end, state = Disconnected implies that connectionId,
connectionToken, groupsToken and lastMessageId are all empty. Disconnect itself always ends
Disconnected with the four fields empty. -/
theorem identity_cleared_when_Disconnected (w0 : World) (steps : List Step)
    (h0 : IdentityCleared w0)
    (hsteps : runsWithin Step.keepsIdentityDiscipline w0 steps = true) :
    ((run w0 steps).conn.mState = ConnectionState.Disconnected →
      (run w0 steps).conn.mConnectionId = "" ∧ (run w0 steps).conn.mConnectionToken = "" ∧
      (run w0 steps).conn.mGroupsToken = "" ∧ (run w0 steps).conn.mMessageId = "") ∧
    (∀ uri, IdentityCleared (World.init uri)) ∧
    (∀ w : World, w.conn.mState ≠ ConnectionState.Disconnected →
      (Disconnect w).conn.mState = ConnectionState.Disconnected ∧
      (Disconnect w).conn.mConnectionId = "" ∧ (Disconnect w).conn.mConnectionToken = "" ∧
      (Disconnect w).conn.mGroupsToken = "" ∧ (Disconnect w).conn.mMessageId = "") := by
  refine ⟨IdentityCleared_run steps w0 hsteps h0, ?_, ?_⟩
  · intro uri _
    simp [World.init, Connection.init]
  · intro w h
    simp [Disconnect, h, SetState, World.fire, World.emit]

/-- C14 (amended) on the sample connection: a connect, identity setters called while
Connected, then Stop. -/
theorem identity_cleared_when_Disconnected_witness :
    IdentityCleared sampleWorld ∧
    runsWithin Step.keepsIdentityDiscipline sampleWorld
      [Step.callStart (some okTransport), Step.completeNegotiate 0,
       Step.completeTransportStart 0, Step.callSetMessageId "m1",
       Step.callSetGroupsToken "g", Step.callStop] = true ∧
    (run sampleWorld
      [Step.callStart (some okTransport), Step.completeNegotiate 0,
       Step.completeTransportStart 0, Step.callSetMessageId "m1",
       Step.callSetGroupsToken "g", Step.callStop]).conn.mState =
      ConnectionState.Disconnected ∧
    (run sampleWorld
      [Step.callStart (some okTransport), Step.completeNegotiate 0,
       Step.completeTransportStart 0, Step.callSetMessageId "m1",
       Step.callSetGroupsToken "g", Step.callStop]).conn.mMessageId = "" :=
  have h := identity_cleared_when_Disconnected sampleWorld
    [Step.callStart (some okTransport), Step.completeNegotiate 0,
     Step.completeTransportStart 0, Step.callSetMessageId "m1",
     Step.callSetGroupsToken "g", Step.callStop]
    (fun _ => by decide) (by decide)
  ⟨fun _ => by decide, by decide, by decide, (h.1 (by decide)).2.2.2⟩

/-! ## At most one live transport -/

/-- C15 (counterexample): Start with transport 1 runs to completion, Disconnect is called (it
neither aborts nor disposes the transport), then Start with the fresh transport 2 runs up to
its transport start: transports 1 and 2 are both live. -/
theorem Disconnect_leaves_transport_live :
    liveTransports
      (run sampleWorld
        [Step.callStart (some okTransport), Step.completeNegotiate 0,
         Step.completeTransportStart 0, Step.callDisconnect,
         Step.callStart (some (Transport.succeeding 2 "id2" "token2")),
         Step.completeNegotiate 1]).trace = [1, 2] := by
  decide

theorem liveTransports_append (es fs : List Effect) :
    liveTransports (es ++ fs) = fs.foldl liveStep (liveTransports es) := by
  simp [liveTransports]

theorem foldl_liveStep_neutral (fs : List Effect) :
    ∀ live : List Nat, (∀ e ∈ fs, e.isNeutral = true) → fs.foldl liveStep live = live := by
  induction fs with
  | nil => intro live _; rfl
  | cons e rest ih =>
    intro live h
    have he : e.isNeutral = true := h e (List.mem_cons_self _ _)
    have hstep : liveStep live e = live := by
      cases e <;> simp [Effect.isNeutral] at he <;> rfl
    rw [List.foldl_cons, hstep]
    exact ih live (fun x hx => h x (List.mem_cons_of_mem _ hx))

theorem liveTransports_neutral (es fs : List Effect) (h : ∀ e ∈ fs, e.isNeutral = true) :
    liveTransports (es ++ fs) = liveTransports es := by
  rw [liveTransports_append, foldl_liveStep_neutral fs _ h]

theorem liveTransports_start (es : List Effect) (t c : Nat) :
    ∀ x ∈ liveTransports (es ++ [Effect.start t c]), x ∈ liveTransports es ∨ x = t := by
  intro x hx
  rw [liveTransports_append] at hx
  simp only [List.foldl_cons, List.foldl_nil, liveStep] at hx
  split at hx
  · exact Or.inl hx
  · rcases List.mem_append.1 hx with h | h
    · exact Or.inl h
    · exact Or.inr (by simpa using h)

theorem liveTransports_release (es : List Effect) (t : Nat) (e1 e2 : Effect)
    (h1 : e1.isNeutral = true) (h2 : e2.isNeutral = true)
    (h : ∀ x ∈ liveTransports es, x = t) :
    liveTransports (es ++ [Effect.abort t, e1, e2, Effect.dispose t]) = [] := by
  have hf : (liveTransports es).filter (fun x => decide (x ≠ t)) = [] := by
    rw [List.filter_eq_nil_iff]
    intro x hx
    simp [h x hx]
  have e1n : ∀ l, liveStep l e1 = l := by
    intro l; cases e1 <;> simp [Effect.isNeutral] at h1 <;> rfl
  have e2n : ∀ l, liveStep l e2 = l := by
    intro l; cases e2 <;> simp [Effect.isNeutral] at h2 <;> rfl
  rw [liveTransports_append]
  simp only [List.foldl_cons, List.foldl_nil]
  rw [show liveStep (liveTransports es) (Effect.abort t) = [] from hf, e1n, e2n]
  rfl

/-- A change of world that keeps the bindings, does not enter Disconnected, creates no pending
stage and can only make the bound transport live, keeps the invariant. -/
theorem SingleTransport_of_frame (w w2 : World) (h : SingleTransport w)
    (hstate : w2.conn.mState = ConnectionState.Disconnected →
      w.conn.mState = ConnectionState.Disconnected)
    (hT : w2.conn.mTransport = w.conn.mTransport)
    (hC : w2.conn.mDisconnectCts = w.conn.mDisconnectCts)
    (hK : w2.conn.mConnectTask = w.conn.mConnectTask)
    (htasks : ∀ (j : Nat) (stage2 : ConnectTask), w2.tasks[j]? = some stage2 →
      stage2.isPending = true →
      ∃ stage : ConnectTask, w.tasks[j]? = some stage ∧ stage.isPending = true)
    (hlive : ∀ x ∈ liveTransports w2.trace, x ∈ liveTransports w.trace ∨
      (w.conn.mState ≠ ConnectionState.Disconnected ∧
        ∃ t, w.conn.mTransport = some t ∧ x = t.id)) :
    SingleTransport w2 := by
  obtain ⟨j1, j2, j3⟩ := h
  refine ⟨?_, ?_, ?_⟩
  · intro k stage2 hk hp
    obtain ⟨stage, hs1, hs2⟩ := htasks k stage2 hk hp
    obtain ⟨a, b, t, cts, ht, hc⟩ := j1 k stage hs1 hs2
    exact ⟨fun hd => a (hstate hd), by rw [hK]; exact b, t, cts, by rw [hT]; exact ht,
      by rw [hC]; exact hc⟩
  · intro hd
    have hd1 := hstate hd
    rw [List.eq_nil_iff_forall_not_mem]
    intro x hx
    rcases hlive x hx with hl | ⟨hne, _⟩
    · rw [j2 hd1] at hl
      cases hl
    · exact hne hd1
  · intro x hx
    rcases hlive x hx with hl | ⟨_, t2, ht2, hx2⟩
    · obtain ⟨t, ht, hxt⟩ := j3 x hl
      exact ⟨t, by rw [hT]; exact ht, hxt⟩
    · exact ⟨t2, by rw [hT]; exact ht2, hx2⟩

/-- The frame conditions for a change that touches neither the pipelines nor the bindings and
appends neutral effects only. -/
theorem SingleTransport_of_quiet (w w2 : World) (fs : List Effect) (h : SingleTransport w)
    (hstate : w2.conn.mState = ConnectionState.Disconnected →
      w.conn.mState = ConnectionState.Disconnected)
    (hT : w2.conn.mTransport = w.conn.mTransport)
    (hC : w2.conn.mDisconnectCts = w.conn.mDisconnectCts)
    (hK : w2.conn.mConnectTask = w.conn.mConnectTask)
    (htasks : w2.tasks = w.tasks)
    (htrace : w2.trace = w.trace ++ fs) (hfs : ∀ e ∈ fs, e.isNeutral = true) :
    SingleTransport w2 := by
  apply SingleTransport_of_frame w w2 h hstate hT hC hK
  · intro j stage2 hj hp
    rw [htasks] at hj
    exact ⟨stage2, hj, hp⟩
  · intro x hx
    rw [htrace, liveTransports_neutral _ _ hfs] at hx
    exact Or.inl hx

theorem transportStartCompleted_conn (w : World) (k : Nat) :
    ∃ s, (transportStartCompleted w k).conn = { w.conn with mState := s } := by
  unfold transportStartCompleted
  split
  · split
    · exact ⟨w.conn.mState, rfl⟩
    · unfold ChangeState
      split
      · exact ⟨ConnectionState.Connected, by simp [World.setTask, SetState, World.fire,
          World.emit]⟩
      · exact ⟨w.conn.mState, rfl⟩
  · exact ⟨w.conn.mState, rfl⟩

theorem StartTransport_tasks (w : World) : (StartTransport w).1.tasks = w.tasks := by
  unfold StartTransport
  split <;> simp [World.emit]

theorem SingleTransport_negotiateCompleted (w : World) (k : Nat) (h : SingleTransport w) :
    SingleTransport (negotiateCompleted w k) := by
  obtain ⟨cid, ctok, hconn⟩ := negotiateCompleted_conn w k
  apply SingleTransport_of_frame w _ h
  · rw [negotiateCompleted_mState]
    exact id
  · rw [hconn]
  · rw [hconn]
  · rw [hconn]
  · intro j stage2 hj hp
    unfold negotiateCompleted at hj
    split at hj
    · next tr heq =>
      have hset : ∀ x : ConnectTask, (w.tasks.set k x)[j]? = some stage2 →
          ∃ stage : ConnectTask, w.tasks[j]? = some stage ∧ stage.isPending = true := by
        intro x hx
        rw [List.getElem?_set] at hx
        by_cases hkj : k = j
        · subst hkj
          exact ⟨_, heq, rfl⟩
        · rw [if_neg hkj] at hx
          exact ⟨stage2, hx, hp⟩
      split at hj
      · exact hset _ (by simpa [World.setTask] using hj)
      · simp only [World.setTask, StartTransport_tasks] at hj
        exact hset _ hj
    · exact ⟨stage2, hj, hp⟩
  · intro x hx
    unfold negotiateCompleted at hx
    split at hx
    · next tr heq =>
      obtain ⟨hne, _, t, cts, ht, hc⟩ := h.1 k _ heq rfl
      split at hx
      · exact Or.inl (by simpa [World.setTask] using hx)
      · simp only [World.setTask, StartTransport, ht, hc, World.emit] at hx
        rcases liveTransports_start _ _ _ x hx with hl | hl
        · exact Or.inl hl
        · exact Or.inr ⟨hne, t, ht, hl⟩
    · exact Or.inl hx

theorem SingleTransport_transportStartCompleted (w : World) (k : Nat)
    (h : SingleTransport w) : SingleTransport (transportStartCompleted w k) := by
  obtain ⟨s, hconn⟩ := transportStartCompleted_conn w k
  apply SingleTransport_of_frame w _ h
  · intro hd
    by_contra hne
    exact transportStartCompleted_ne_Disconnected w k hne hd
  · rw [hconn]
  · rw [hconn]
  · rw [hconn]
  · intro j stage2 hj hp
    unfold transportStartCompleted at hj
    split at hj
    · next tr heq =>
      have hset : ∀ x : ConnectTask, (w.tasks.set k x)[j]? = some stage2 →
          ∃ stage : ConnectTask, w.tasks[j]? = some stage ∧ stage.isPending = true := by
        intro x hx
        rw [List.getElem?_set] at hx
        by_cases hkj : k = j
        · subst hkj
          exact ⟨_, heq, rfl⟩
        · rw [if_neg hkj] at hx
          exact ⟨stage2, hx, hp⟩
      split at hj
      · exact hset _ (by simpa [World.setTask] using hj)
      · exact hset _ (by simpa [World.setTask, ChangeState_tasks] using hj)
    · exact ⟨stage2, hj, hp⟩
  · intro x hx
    left
    unfold transportStartCompleted at hx
    split at hx
    · split at hx
      · simpa [World.setTask] using hx
      · simp only [World.setTask] at hx
        unfold ChangeState at hx
        split at hx
        · simp only [SetState, World.fire, World.emit] at hx
          rwa [liveTransports_neutral _ _ (by simp [Effect.isNeutral])] at hx
        · exact hx
    · exact hx

theorem negotiateCompleted_tasks_of_awaiting (w : World) (k : Nat) (tr : Transport)
    (h : w.tasks[k]? = some (ConnectTask.awaitingNegotiate tr)) :
    ∃ x : ConnectTask, (negotiateCompleted w k).tasks = w.tasks.set k x ∧
      ((∃ r, x = ConnectTask.done r) ∨ ∃ t, x = ConnectTask.awaitingStart t) := by
  unfold negotiateCompleted
  rw [h]
  simp only []
  split
  · exact ⟨_, rfl, Or.inl ⟨_, rfl⟩⟩
  · next response _ =>
    refine ⟨(StartTransport
      { w with conn := { w.conn with
          mConnectionId := response.mConnectionId
          mConnectionToken := response.mConnectionToken } }).2, ?_, ?_⟩
    · simp only [World.setTask, StartTransport_tasks]
    · unfold StartTransport
      split
      · exact Or.inr ⟨_, rfl⟩
      · exact Or.inl ⟨_, rfl⟩

theorem transportStartCompleted_tasks_of_awaiting (w : World) (k : Nat) (tr : Transport)
    (h : w.tasks[k]? = some (ConnectTask.awaitingStart tr)) :
    ∃ r, (transportStartCompleted w k).tasks = w.tasks.set k (ConnectTask.done r) := by
  unfold transportStartCompleted
  rw [h]
  simp only []
  split
  · exact ⟨_, rfl⟩
  · refine ⟨Outcome.returned (), ?_⟩
    simp only [World.setTask, ChangeState_tasks]

theorem transportStartCompleted_of_not_awaiting (w : World) (k : Nat)
    (h : ∀ tr, w.tasks[k]? ≠ some (ConnectTask.awaitingStart tr)) :
    transportStartCompleted w k = w := by
  unfold transportStartCompleted
  split
  · next tr heq => exact absurd heq (h tr)
  · rfl

/-- After both completion steps the awaited pipeline has resolved. -/
theorem wait_not_pending (w : World) (k : Nat) (stage : ConnectTask)
    (h : (transportStartCompleted (negotiateCompleted w k) k).tasks[k]? = some stage) :
    stage.isPending = false := by
  cases hq : w.tasks[k]? with
  | none =>
    rw [negotiateCompleted_of_not_awaiting w k (by simp [awaitsNegotiate, hq]),
      transportStartCompleted_of_not_awaiting w k (by simp [hq]), hq] at h
    cases h
  | some st =>
    have hlt : k < w.tasks.length := by
      by_contra hge
      rw [List.getElem?_eq_none (Nat.le_of_not_lt hge)] at hq
      cases hq
    cases st with
    | awaitingNegotiate tr1 =>
      obtain ⟨x, hx, hkind⟩ := negotiateCompleted_tasks_of_awaiting w k tr1 hq
      have hxk : (negotiateCompleted w k).tasks[k]? = some x := by
        rw [hx, List.getElem?_set_self hlt]
      rcases hkind with ⟨r, hr⟩ | ⟨t, ht⟩
      · subst hr
        rw [transportStartCompleted_of_done _ k r hxk, hxk] at h
        cases h
        rfl
      · subst ht
        obtain ⟨r, hr⟩ := transportStartCompleted_tasks_of_awaiting _ k t hxk
        have hlt2 : k < (negotiateCompleted w k).tasks.length := by
          rw [hx, List.length_set]; exact hlt
        rw [hr, List.getElem?_set_self hlt2] at h
        cases h
        rfl
    | awaitingStart tr1 =>
      rw [negotiateCompleted_of_not_awaiting w k (by simp [awaitsNegotiate, hq])] at h
      obtain ⟨r, hr⟩ := transportStartCompleted_tasks_of_awaiting w k tr1 hq
      rw [hr, List.getElem?_set_self hlt] at h
      cases h
      rfl
    | done r =>
      rw [negotiateCompleted_of_done w k r hq, transportStartCompleted_of_done w k r hq, hq] at h
      cases h
      rfl

theorem awaitConnect_mConnectTask (w : World) :
    (awaitConnect w).1.conn.mConnectTask = w.conn.mConnectTask := by
  cases hk : w.conn.mConnectTask with
  | empty => rw [awaitConnect_empty w hk]; exact hk
  | connect k =>
    obtain ⟨s, hs⟩ := transportStartCompleted_conn (negotiateCompleted w k) k
    obtain ⟨a, b, hn⟩ := negotiateCompleted_conn w k
    rw [awaitConnect_fst w k hk, hs, hn]
    exact hk

theorem SingleTransport_awaitConnect (w : World) (h : SingleTransport w) :
    SingleTransport (awaitConnect w).1 := by
  cases hk : w.conn.mConnectTask with
  | empty => rw [awaitConnect_empty w hk]; exact h
  | connect k =>
    rw [awaitConnect_fst w k hk]
    exact SingleTransport_transportStartCompleted _ k (SingleTransport_negotiateCompleted w k h)

theorem awaitConnect_none_pending (w : World) (h : SingleTransport w) (k : Nat)
    (stage : ConnectTask) (hk : (awaitConnect w).1.tasks[k]? = some stage) :
    stage.isPending = false := by
  cases hp : stage.isPending with
  | false => rfl
  | true =>
    obtain ⟨_, hrec, _⟩ := (SingleTransport_awaitConnect w h).1 k stage hk hp
    rw [awaitConnect_mConnectTask] at hrec
    rw [awaitConnect_fst w k hrec] at hk
    rw [wait_not_pending w k stage hk] at hp
    cases hp

theorem teardown_tasks (w : World) : (teardown w).1.tasks = w.tasks := by
  unfold teardown
  split
  · split
    · rfl
    · simp only []
      split <;> simp [World.emit, Disconnect, SetState, World.fire] <;> split <;> rfl
  · rfl

theorem SingleTransport_Stop (w : World) (h : SingleTransport w) :
    SingleTransport (Stop w).1 := by
  have h1 := SingleTransport_awaitConnect w h
  by_cases hr : (awaitConnect w).2 = Outcome.returned ()
  · rw [Stop_of_returned w hr]
    by_cases hd : (awaitConnect w).1.conn.mState = ConnectionState.Disconnected
    · rw [teardown_of_Disconnected _ hd]
      exact h1
    · cases ht : (awaitConnect w).1.conn.mTransport with
      | none =>
        have hsame : (teardown (awaitConnect w).1).1 = (awaitConnect w).1 := by
          simp [teardown, hd, ht]
        rw [hsame]
        exact h1
      | some t =>
        have hall : ∀ x ∈ liveTransports (awaitConnect w).1.trace, x = t.id := by
          intro x hx
          obtain ⟨t2, ht2, hx2⟩ := h1.2.2 x hx
          rw [ht] at ht2
          cases ht2
          exact hx2
        obtain ⟨_, hstate, _, _, _, _, _, htrace⟩ := teardown_of_active _ t hd ht
        have hnil : liveTransports (teardown (awaitConnect w).1).1.trace = [] := by
          rw [htrace]
          exact liveTransports_release _ _ _ _ rfl rfl hall
        refine ⟨?_, fun _ => hnil, ?_⟩
        · intro k stage hk hp
          rw [teardown_tasks] at hk
          rw [awaitConnect_none_pending w h k stage hk] at hp
          cases hp
        · intro x hx
          rw [hnil] at hx
          cases hx
  · rw [Stop_of_not_returned w hr]
    exact h1

theorem SingleTransport_Start_null (w : World) (h : SingleTransport w)
    (hd : w.conn.mState = ConnectionState.Disconnected) :
    SingleTransport (Start w none).1 := by
  have hw : (Start w none).1 =
      { w with
        conn := { w.conn with
          mState := ConnectionState.Connecting
          mTransport := none
          mConnectTask := TaskHandle.empty
          mDisconnectCts := some w.ctsCount }
        ctsCount := w.ctsCount + 1
        trace := w.trace ++
          [Effect.fired
            (Event.StateChanged ConnectionState.Disconnected ConnectionState.Connecting)
            w.conn.StateChanged
            { mState := ConnectionState.Connecting
              mConnectionId := w.conn.mConnectionId
              mConnectionToken := w.conn.mConnectionToken
              mGroupsToken := w.conn.mGroupsToken
              mMessageId := w.conn.mMessageId }] } := by
    simp [Start, ChangeState, hd, SetState, Negotiate, World.fire, World.emit,
      Connection.snapshot]
  rw [hw]
  refine ⟨?_, ?_, ?_⟩
  · intro k stage hk hp
    exact absurd hd (h.1 k stage hk hp).1
  · intro hc
    simp at hc
  · intro x hx
    simp only [] at hx
    rw [liveTransports_neutral _ _ (by simp [Effect.isNeutral]), h.2.1 hd] at hx
    cases hx

theorem SingleTransport_Start (w : World) (t : Transport) (h : SingleTransport w)
    (hd : w.conn.mState = ConnectionState.Disconnected) :
    SingleTransport (Start w (some t)).1 := by
  rw [Start_of_Disconnected w t hd]
  refine ⟨?_, ?_, ?_⟩
  · intro k stage hk hp
    refine ⟨by simp, ?_, t, w.ctsCount, rfl, rfl⟩
    simp only [] at hk ⊢
    rw [List.getElem?_append] at hk
    split at hk
    · exact absurd hd (h.1 k stage hk hp).1
    · next hge =>
      have hk0 : k - w.tasks.length = 0 := by
        by_contra hne
        obtain ⟨n, hn⟩ := Nat.exists_eq_succ_of_ne_zero hne
        rw [hn] at hk
        simp at hk
      have : k = w.tasks.length := by omega
      rw [this]
  · intro hc
    simp at hc
  · intro x hx
    simp only [] at hx
    rw [liveTransports_neutral _ _ (by simp [Effect.isNeutral]), h.2.1 hd] at hx
    cases hx

theorem OnReceived_world (w : World) (message : String) :
    ∃ fs, (OnReceived w message).1 = { w with trace := w.trace ++ fs } ∧
      ∀ e ∈ fs, e.isNeutral = true := by
  cases hR : w.conn.Received with
  | none =>
    exact ⟨[Effect.fired (Event.Received message) false w.conn.snapshot],
      by simp [OnReceived, hR, World.fire, World.emit], by simp [Effect.isNeutral]⟩
  | some subscribers =>
    have hrep : ∀ e ∈ List.replicate (invokeReceived subscribers message).1
        (Effect.fired (Event.Received message) true w.conn.snapshot),
        e.isNeutral = true := by
      intro e he
      rw [List.eq_of_mem_replicate he]
      rfl
    cases hi : (invokeReceived subscribers message).2 with
    | none =>
      exact ⟨_, by simp [OnReceived, hR, callReceived, hi], hrep⟩
    | some ex =>
      refine ⟨List.replicate (invokeReceived subscribers message).1
          (Effect.fired (Event.Received message) true w.conn.snapshot) ++
        [Effect.fired (Event.Error ex) w.conn.Error w.conn.snapshot], ?_, ?_⟩
      · simp [OnReceived, hR, callReceived, hi, OnError, World.fire, World.emit]
      · intro e he
        rcases List.mem_append.1 he with h1 | h1
        · exact hrep e h1
        · simp at h1
          rw [h1]
          rfl

theorem SingleTransport_step (w : World) (s : Step)
    (hs : s.keepsSingleTransport w = true) (h : SingleTransport w) :
    SingleTransport (s.apply w) := by
  cases s with
  | callStart transport =>
    have hd : w.conn.mState = ConnectionState.Disconnected := by
      simpa [Step.keepsSingleTransport] using hs
    cases transport with
    | none => exact SingleTransport_Start_null w h hd
    | some t => exact SingleTransport_Start w t h hd
  | callStop => exact SingleTransport_Stop w h
  | callSend data =>
    show SingleTransport (Send w data).1
    unfold Send
    split
    · exact h
    · split
      · exact h
      · split
        · exact h
        · exact SingleTransport_of_quiet w _ [_] h id rfl rfl rfl rfl rfl
            (by simp [Effect.isNeutral])
  | callChangeState o n =>
    show SingleTransport (ChangeState w o n).1
    simp [Step.keepsSingleTransport] at hs
    unfold ChangeState
    split
    · next ho =>
      refine SingleTransport_of_quiet w _ [_] h ?_ rfl rfl rfl rfl rfl
        (by simp [Effect.isNeutral])
      simp only [SetState, World.fire, World.emit]
      intro hc
      rcases hs with (hs | hs) | hs
      · exact absurd hc hs
      · exact absurd ho hs
      · exact hs
    · exact h
  | callEnsureReconnecting =>
    show SingleTransport (EnsureReconnecting w).1
    by_cases hc : w.conn.mState = ConnectionState.Connected
    · have hw : (EnsureReconnecting w).1 =
          { w with
            conn := { w.conn with mState := ConnectionState.Reconnecting }
            trace := w.trace ++
              [Effect.fired
                 (Event.StateChanged ConnectionState.Connected ConnectionState.Reconnecting)
                 w.conn.StateChanged
                 ({ w.conn with mState := ConnectionState.Reconnecting } : Connection).snapshot,
               Effect.fired Event.Reconnecting w.conn.Reconnecting
                 ({ w.conn with mState := ConnectionState.Reconnecting } :
                   Connection).snapshot] } := by
        simp [EnsureReconnecting, ChangeState, hc, SetState, OnReconnecting, World.fire,
          World.emit]
      rw [hw]
      refine SingleTransport_of_quiet w _ _ h ?_ rfl rfl rfl rfl rfl
        (by simp [Effect.isNeutral])
      intro hcontra
      cases hcontra
    · have : (EnsureReconnecting w).1 = w := by
        simp [EnsureReconnecting, ChangeState, hc]
      rw [this]
      exact h
  | callDisconnect =>
    have hd : w.conn.mState = ConnectionState.Disconnected := by
      simpa [Step.keepsSingleTransport] using hs
    have hw : Disconnect w = w := by simp [Disconnect, hd]
    show SingleTransport (Disconnect w)
    rw [hw]
    exact h
  | callSetMessageId value =>
    exact SingleTransport_of_quiet w (SetMessageId w value) [] h id rfl rfl rfl rfl
      (by simp [SetMessageId]) (by simp)
  | callSetConnectionToken value =>
    exact SingleTransport_of_quiet w (SetConnectionToken w value) [] h id rfl rfl rfl rfl
      (by simp [SetConnectionToken]) (by simp)
  | callSetConnectionId value =>
    exact SingleTransport_of_quiet w (SetConnectionId w value) [] h id rfl rfl rfl rfl
      (by simp [SetConnectionId]) (by simp)
  | callSetGroupsToken value =>
    exact SingleTransport_of_quiet w (SetGroupsToken w value) [] h id rfl rfl rfl rfl
      (by simp [SetGroupsToken]) (by simp)
  | callSetProtocol value =>
    exact SingleTransport_of_quiet w (SetProtocol w value) [] h id rfl rfl rfl rfl
      (by simp [SetProtocol]) (by simp)
  | callOnReceived message =>
    show SingleTransport (OnReceived w message).1
    obtain ⟨fs, hw, hfs⟩ := OnReceived_world w message
    rw [hw]
    exact SingleTransport_of_quiet w _ fs h id rfl rfl rfl rfl rfl hfs
  | completeNegotiate k => exact SingleTransport_negotiateCompleted w k h
  | completeTransportStart k => exact SingleTransport_transportStartCompleted w k h

theorem SingleTransport_run (steps : List Step) :
    ∀ w : World, runsWithin Step.keepsSingleTransport w steps = true → SingleTransport w →
      SingleTransport (run w steps) := by
  induction steps with
  | nil => intro w _ h; exact h
  | cons s rest ih =>
    intro w hs h
    simp [runsWithin] at hs
    exact ih (s.apply w) hs.2 (SingleTransport_step w s hs.1 h)

/-- C15 (amended): start from a connection with no live transport and no pending pipeline (a
fresh connection is one) and take any sequence of steps in which Start is called only on a
Disconnected connection, and neither ChangeState nor a direct call of Disconnect takes the
connection from another state into Disconnected; Stop, Send, EnsureReconnecting, every other
ChangeState, the setters, message delivery and the task completions are free. Then at most one transport is live: any two live transports are the
same, a live transport is the bound one, and none is live while the connection is
Disconnected. -/
theorem at_most_one_live_transport (w0 : World) (steps : List Step)
    (hlive : liveTransports w0.trace = [])
    (htasks : ∀ (k : Nat) (stage : ConnectTask), w0.tasks[k]? = some stage →
      stage.isPending = false)
    (hsteps : runsWithin Step.keepsSingleTransport w0 steps = true) :
    (∀ a b, a ∈ liveTransports (run w0 steps).trace →
      b ∈ liveTransports (run w0 steps).trace → a = b) ∧
    (∀ a ∈ liveTransports (run w0 steps).trace,
      ∃ t, (run w0 steps).conn.mTransport = some t ∧ a = t.id) ∧
    ((run w0 steps).conn.mState = ConnectionState.Disconnected →
      liveTransports (run w0 steps).trace = []) := by
  have hJ0 : SingleTransport w0 := by
    refine ⟨?_, fun _ => hlive, ?_⟩
    · intro k stage hk hp
      rw [htasks k stage hk] at hp
      cases hp
    · intro x hx
      rw [hlive] at hx
      cases hx
  obtain ⟨_, j2, j3⟩ := SingleTransport_run steps w0 hsteps hJ0
  refine ⟨?_, j3, j2⟩
  intro a b ha hb
  obtain ⟨t, ht, hat⟩ := j3 a ha
  obtain ⟨t2, ht2, hbt⟩ := j3 b hb
  rw [ht] at ht2
  cases ht2
  rw [hat, hbt]

/-- C15 (amended) on the sample connection: a connect with transport 1, Stop, a ChangeState
that leaves Disconnected and a Stop that brings the connection down again, then a connect with
the fresh transport 2 up to its transport start; only transport 2 is live. -/
theorem at_most_one_live_transport_witness :
    liveTransports sampleWorld.trace = [] ∧
    runsWithin Step.keepsSingleTransport sampleWorld
      [Step.callStart (some okTransport), Step.completeNegotiate 0,
       Step.completeTransportStart 0, Step.callStop,
       Step.callChangeState ConnectionState.Disconnected ConnectionState.Connected,
       Step.callStop,
       Step.callStart (some (Transport.succeeding 2 "id2" "token2")),
       Step.completeNegotiate 1] = true ∧
    liveTransports
      (run sampleWorld
        [Step.callStart (some okTransport), Step.completeNegotiate 0,
         Step.completeTransportStart 0, Step.callStop,
         Step.callChangeState ConnectionState.Disconnected ConnectionState.Connected,
         Step.callStop,
         Step.callStart (some (Transport.succeeding 2 "id2" "token2")),
         Step.completeNegotiate 1]).trace = [2] ∧
    (∀ a b,
      a ∈ liveTransports
        (run sampleWorld
          [Step.callStart (some okTransport), Step.completeNegotiate 0,
           Step.completeTransportStart 0, Step.callStop,
           Step.callChangeState ConnectionState.Disconnected ConnectionState.Connected,
           Step.callStop,
           Step.callStart (some (Transport.succeeding 2 "id2" "token2")),
           Step.completeNegotiate 1]).trace →
      b ∈ liveTransports
        (run sampleWorld
          [Step.callStart (some okTransport), Step.completeNegotiate 0,
           Step.completeTransportStart 0, Step.callStop,
           Step.callChangeState ConnectionState.Disconnected ConnectionState.Connected,
           Step.callStop,
           Step.callStart (some (Transport.succeeding 2 "id2" "token2")),
           Step.completeNegotiate 1]).trace → a = b) :=
  ⟨by decide, by decide, by decide,
    (at_most_one_live_transport sampleWorld
      [Step.callStart (some okTransport), Step.completeNegotiate 0,
       Step.completeTransportStart 0, Step.callStop,
       Step.callChangeState ConnectionState.Disconnected ConnectionState.Connected,
       Step.callStop,
       Step.callStart (some (Transport.succeeding 2 "id2" "token2")),
       Step.completeNegotiate 1]
      (by decide)
      (by
        intro k stage hk
        have ht : sampleWorld.tasks = [] := rfl
        rw [ht] at hk
        simp at hk)
      (by decide)).1⟩

end SignalR
